import Mathlib

/-!
Verification of the GAUL population/entity core (ga_core.c, ga_utility.c).

The development shallowly embeds the parts of the library needed by the
claims under scrutiny:

* the entity pool of a population (the id index `entity_array`, the rank
  index `entity_iarray`, the `free_index` cursor, `size` / `max_size`),
  together with `ga_get_free_entity`, `ga_entity_dereference_by_rank`,
  `ga_get_entity_from_id` and `ga_population_seed`;
* `ga_population_new` with its full field initialisation;
* the binary population snapshot writer `ga_population_write` and the two
  readers `ga_population_read` / `ga_population_read_001`;
* the systematic `ga_allele_search` local search of ga_utility.c;
* the process-wide population registry.  The table implementation
  (table_new / table_add / table_get_data) is not part of the sources, so
  it is modelled from the specification text.

Machine integers are modelled as `Nat` / `Int` (the C code uses `int` and
`unsigned int`); raw `double` values that the code only moves around byte
for byte (fitness, the three rates) are modelled as opaque 8-byte blocks.
Entity pointers are modelled as `Nat` handles; the chunk allocator
`mem_chunk_alloc` is modelled as a fresh-handle counter, which preserves
the only property the code relies on, namely that live entities are
pairwise distinct.
-/

/-! ### Byte-level primitives used by the snapshot format -/

/-- ASCII bytes of a string (the C code writes string literals byte by byte). -/
def strBytes (s : String) : List Nat := s.toList.map Char.toNat

/-- Little-endian bytes of a 32-bit `int` value, two's complement. -/
def u32bytes (n : Int) : List Nat :=
  let m := (n % (4294967296 : Int)).toNat
  [m % 256, m / 256 % 256, m / 65536 % 256, m / 16777216 % 256]

/-- Value of 4 little-endian bytes as an `unsigned int`. -/
def decodeU32 (bs : List Nat) : Nat :=
  bs.getD 0 0 % 256 + 256 * (bs.getD 1 0 % 256) + 65536 * (bs.getD 2 0 % 256) +
    16777216 * (bs.getD 3 0 % 256)

/-- Value of 4 little-endian bytes as a signed 32-bit `int`, two's complement. -/
def decodeI32 (bs : List Nat) : Int :=
  let m := decodeU32 bs
  if m < 2147483648 then (m : Int) else (m : Int) - 4294967296

/-- Snapshot magic of ga_population_write / ga_population_read. -/
def magic002 : List Nat := strBytes "FORMAT: GAUL POPULATION 002"

/-- Snapshot magic accepted by the compatibility reader ga_population_read_001. -/
def magic001 : List Nat := strBytes "FORMAT: GAUL POPULATION 001"

/-- The 4 trailer bytes written by `fwrite("END", sizeof(char), 4, fp)`:
the three letters plus the terminating NUL of the literal. -/
def endTrailer : List Nat := strBytes "END" ++ [0]

/-- The 64-byte version+build-date field: `snprintf` writes at most 63
characters plus a NUL into a zero-filled 64-byte buffer, and the whole
buffer is then written out. -/
def pad64 (v : List Nat) : List Nat :=
  v.take 63 ++ List.replicate (64 - min v.length 63) 0

/-! ### The population structure and its entity pool (ga_core.c) -/

/-- Evolutionary scheme constants (`GA_SCHEME_DARWIN` etc.). -/
inductive GAscheme : Type
  | darwin
  | lamarck_parents
  | lamarck_children
  | lamarck_all
  | baldwin_parents
  | baldwin_children
  | baldwin_all
deriving DecidableEq

/-- Elitism mode constants (`GA_ELITISM_UNKNOWN` etc.). -/
inductive GAelitism : Type
  | unknown
  | parents_survive
  | one_parent_survives
  | rescore_parents
  | parents_die
deriving DecidableEq

/-- The population structure of ga_core.h, restricted to the fields the
embedded operations touch.  Entity pointers are `Nat` handles, an empty
slot is `none`.  Callback pointers are opaque handles (`Option Nat`,
`none` = NULL).  `next_ptr` models the chunk allocator's supply of fresh
entity pointers and `chromo_constructed` records the entities on which the
`chromosome_constructor` callback has been invoked. -/
structure population : Type where
  size : Nat
  stable_size : Nat
  max_size : Nat
  orig_size : Nat
  num_chromosomes : Nat
  len_chromosomes : Nat
  free_index : Nat
  island : Int
  generation : Nat
  crossover_ratio : Rat
  mutation_ratio : Rat
  migration_ratio : Rat
  scheme : GAscheme
  elitism : GAelitism
  entity_array : List (Option Nat)
  entity_iarray : List (Option Nat)
  next_ptr : Nat
  chromo_constructed : List Nat
  generation_hook : Option Nat
  iteration_hook : Option Nat
  data_destructor : Option Nat
  data_ref_incrementor : Option Nat
  chromosome_constructor : Option Nat
  chromosome_destructor : Option Nat
  chromosome_replicate : Option Nat
  chromosome_to_bytes : Option Nat
  chromosome_from_bytes : Option Nat
  chromosome_to_string : Option Nat
  evaluate : Option Nat
  seed : Option Nat
  adapt : Option Nat
  select_one : Option Nat
  select_two : Option Nat
  mutate : Option Nat
  crossover : Option Nat
  replace : Option Nat
deriving DecidableEq

/-- Modelled from the spec: the process-wide registry table
(`table_new` / `table_add` / `table_get_data` are not among the sources;
section 4.6 describes insertion returning a fresh small integer id, with
ids reused after removal).  A table is a list of slots indexed by id. -/
structure Table (α : Type) : Type where
  slots : List (Option α)

/-- Modelled from the spec: `table_add` inserts at the lowest free id
(so that ids can be reused after removal) or appends a fresh id. -/
def table_add {α : Type} (t : Table α) (x : α) : Table α × Nat :=
  match t.slots.findIdx? (fun s => s.isNone) with
  | some i => (⟨t.slots.set i (some x)⟩, i)
  | none => (⟨t.slots ++ [some x]⟩, t.slots.length)

/-- Modelled from the spec: `table_get_data` looks an id up in the table. -/
def table_get_data {α : Type} (t : Table α) (id : Nat) : Option α :=
  t.slots.getD id none

/-- Live entity handles of an id or rank index: the non-NULL slots. -/
def liveh (l : List (Option Nat)) : List Nat := l.filterMap id

/-- ga_population_new of ga_core.c (part_000 revision): allocates a
population with `max_size = stable_size*4`, wiped entity arrays, default
rates 1.0, scheme Darwin, elitism unknown, generation 0, island -1, all
callbacks NULL, and registers it in the population table, returning the
new population, the updated table and the assigned id. -/
def ga_population_new (stable_size num_chromosome len_chromosome : Nat)
    (pop_table : Table population) : population × Table population × Nat :=
  let newpop : population :=
    { size := 0
      stable_size := stable_size
      max_size := stable_size * 4
      orig_size := 0
      num_chromosomes := num_chromosome
      len_chromosomes := len_chromosome
      free_index := stable_size * 4 - 1
      island := -1
      generation := 0
      crossover_ratio := 1
      mutation_ratio := 1
      migration_ratio := 1
      scheme := GAscheme.darwin
      elitism := GAelitism.unknown
      entity_array := List.replicate (stable_size * 4) none
      entity_iarray := List.replicate (stable_size * 4) none
      next_ptr := 0
      chromo_constructed := []
      generation_hook := none
      iteration_hook := none
      data_destructor := none
      data_ref_incrementor := none
      chromosome_constructor := none
      chromosome_destructor := none
      chromosome_replicate := none
      chromosome_to_bytes := none
      chromosome_from_bytes := none
      chromosome_to_string := none
      evaluate := none
      seed := none
      adapt := none
      select_one := none
      select_two := none
      mutate := none
      crossover := none
      replace := none }
  let (t, pop_id) := table_add pop_table newpop
  (newpop, t, pop_id)

/-- The free-slot scan of ga_get_free_entity:
`while (pop->entity_array[pop->free_index]!=NULL) { if (pop->free_index == 0) pop->free_index=pop->max_size; pop->free_index--; }`.
The scan steps downwards from `fi`, wrapping from slot 0 to slot
`arr.length - 1`.  `fuel` bounds the number of probes; the C loop never
terminates when every slot is occupied, which the model reports as `none`. -/
def scanFree (arr : List (Option Nat)) (fi : Nat) : Nat → Option Nat
  | 0 => none
  | fuel + 1 =>
    if arr.getD fi none = none then some fi
    else scanFree arr (if fi = 0 then arr.length - 1 else fi - 1) fuel

/-- Index reached after `k` backward steps (with wraparound at zero) from
start index `fi` in an array of length `len`.  Used to state that the scan
returns the first free slot in backward order. -/
def stepBack (len fi k : Nat) : Nat :=
  if k ≤ fi then fi - k else fi + len - k

/-- ga_entity_setup: dies when no chromosome constructor is defined,
otherwise invokes `chromosome_constructor` on the entity (recorded in the
`chromo_constructed` log). -/
def ga_entity_setup (p : population) (joe : Nat) : Option population :=
  match p.chromosome_constructor with
  | none => none
  | some _ => some { p with chromo_constructed := joe :: p.chromo_constructed }

/-- ga_get_free_entity of ga_core.c.  If `max_size == size+1` the pool is
grown to `(max_size*3)/2` with the new slots wiped and the cursor reset to
the top; the id index is then scanned backwards from `free_index` for an
empty slot; a fresh entity is allocated there, set up, stored in rank slot
`size`, and `size` is incremented.  `none` models the two fatal paths
(scan failure / missing chromosome constructor).  `pop_grow` is the
growth step that ga_get_free_entity runs on entry. -/
def pop_grow (pop : population) : population :=
  if pop.max_size = pop.size + 1 then
    let new_max_size := pop.max_size * 3 / 2
    { pop with
        entity_array :=
          pop.entity_array ++ List.replicate (new_max_size - pop.max_size) none
        entity_iarray :=
          pop.entity_iarray ++ List.replicate (new_max_size - pop.max_size) none
        max_size := new_max_size
        free_index := new_max_size - 1 }
  else pop

def ga_get_free_entity (pop : population) : Option (population × Nat) :=
  let p := pop_grow pop
  match scanFree p.entity_array p.free_index p.max_size with
  | none => none
  | some fi =>
    let new := p.next_ptr
    match ga_entity_setup p new with
    | none => none
    | some p1 =>
      some ({ p1 with
                entity_array := p1.entity_array.set fi (some new)
                entity_iarray := p1.entity_iarray.set p1.size (some new)
                size := p1.size + 1
                free_index := fi
                next_ptr := new + 1 }, new)

/-- ga_get_entity_id: linear scan of the id index for the entity's slot;
the C function returns -1 when the entity is not present, modelled `none`. -/
def ga_get_entity_id (pop : population) (e : Nat) : Option Nat :=
  pop.entity_array.findIdx? (fun s => s = some e)

/-- Result of the in-place left-shift loop of ga_entity_dereference_by_rank:
`for (i=rank; i<pop->size; i++) pop->entity_iarray[i] = pop->entity_iarray[i+1];`
run after `pop->size--`, so `sz` is the decremented size.  Each written slot
reads a slot that the loop has not yet written, so the final array is
pointwise the original shifted. -/
def shiftLeftIar (l : List (Option Nat)) (rank sz : Nat) : List (Option Nat) :=
  List.ofFn (fun i : Fin l.length =>
    if rank ≤ (i : Nat) ∧ (i : Nat) < sz then l.getD ((i : Nat) + 1) none
    else l.getD (i : Nat) none)

/-- ga_entity_dereference_by_rank of ga_core.c: dies on an empty rank slot;
otherwise decrements `size`, left-shifts every rank above `rank`, clears
rank slot `size`, and frees the id slot found by ga_get_entity_id (the C
writes through index -1 when the scan fails, modelled `none`). -/
def ga_entity_dereference_by_rank (pop : population) (rank : Nat) : Option population :=
  match pop.entity_iarray.getD rank none with
  | none => none
  | some dying =>
    let sz := pop.size - 1
    let iarr := (shiftLeftIar pop.entity_iarray rank sz).set sz none
    match ga_get_entity_id pop dying with
    | none => none
    | some id =>
      some { pop with
               size := sz
               entity_iarray := iarr
               entity_array := pop.entity_array.set id none }

/-- ga_get_entity_from_id: `if (id>pop->max_size) return NULL; return pop->entity_array[id];`.
The outer `Option` is the array access: `none` is an out-of-bounds read,
`some v` an in-bounds read returning slot contents `v` (NULL slots are
`some none`); the guard's NULL return is `some none`. -/
def ga_get_entity_from_id (pop : population) (id : Nat) : Option (Option Nat) :=
  if id > pop.max_size then some none
  else pop.entity_array.get? id

/-- Loop body of ga_population_seed: `stable_size` rounds of
`adam = ga_get_free_entity(pop); pop->seed(pop, adam);` where the boolean
result of the seed callback is discarded. -/
def seedLoop (seedFn : Nat → Bool) : Nat → population → Option population
  | 0, p => some p
  | n + 1, p =>
    match ga_get_free_entity p with
    | none => none
    | some (p1, adam) =>
      let _ := seedFn adam
      seedLoop seedFn n p1

/-- ga_population_seed of ga_core.c: seeds `stable_size` fresh entities via
the user seed callback and returns TRUE. -/
def ga_population_seed (pop : population) (seedFn : Nat → Bool) :
    Option (population × Bool) :=
  match seedLoop seedFn pop.stable_size pop with
  | none => none
  | some p1 => some (p1, true)

/-- The size/rank pool invariant of the specification: arrays of length
`max_size`, a strictly spare pool (`size < max_size`, which all operations
preserve), cursor in range, ranks `0..size-1` live and ranks `≥ size`
empty, the id index holding pairwise distinct live handles, the live
handles of the id index a permutation of the rank prefix, and every live
handle below the allocator counter. -/
def PoolInv (p : population) : Prop :=
  p.entity_array.length = p.max_size ∧
  p.entity_iarray.length = p.max_size ∧
  2 ≤ p.max_size ∧
  p.size < p.max_size ∧
  p.free_index < p.max_size ∧
  (∀ i < p.max_size, i < p.size → (p.entity_iarray.getD i none).isSome = true) ∧
  (∀ i < p.max_size, p.size ≤ i → p.entity_iarray.getD i none = none) ∧
  (liveh p.entity_array).Nodup ∧
  (liveh p.entity_array).Perm (liveh (p.entity_iarray.take p.size)) ∧
  (∀ h ∈ liveh p.entity_array, h < p.next_ptr)

instance (p : population) : Decidable (PoolInv p) := by
  unfold PoolInv; infer_instance

/-! ### The binary population snapshot (ga_population_write / ga_population_read) -/

/-- A callback pointer as seen by the function lookup table of ga_core.c:
NULL, equal to entry `i` of the `lookup[]` table of built-in operators
(entries start at index 1), or an external user function that does not
occur in the table. -/
inductive CB : Type
  | null
  | builtin (i : Nat)
  | external
deriving DecidableEq

/-- ga_funclookup_ptr_to_id: NULL maps to 0, a pointer found in the lookup
table maps to its index, any other pointer to -1. -/
def ga_funclookup_ptr_to_id : CB → Int
  | CB.null => 0
  | CB.builtin i => (i : Int)
  | CB.external => -1

/-- ga_funclookup_id_to_ptr: `(id<0)?NULL:lookup[id].func_ptr`.  Entry 0 of
the `lookup[]` table is NULL and entry `i>0` holds the address of the i-th
built-in operator, which the model identifies with the index `i` (as in
`CB.builtin`).  Ids past the table end would read out of bounds in C; they
are never produced by ga_funclookup_ptr_to_id and no theorem relies on
them. -/
def ga_funclookup_id_to_ptr (id : Int) : Option Nat :=
  if id ≤ 0 then none else some id.toNat

/-- An entity as the snapshot sees it: the 8 raw bytes of its `double`
fitness and the buffer produced by the `chromosome_to_bytes` callback. -/
structure WEntity : Type where
  fitnessBytes : List Nat
  chromBytes : List Nat
deriving DecidableEq

/-- A population as the snapshot writer sees it.  `entities` lists the live
entities in rank order (`entity_iarray[0..size)`), so `pop->size` is
`entities.length`; the three `double` rates are opaque 8-byte blocks. -/
structure WPop : Type where
  entities : List WEntity
  stable_size : Int
  num_chromosomes : Int
  len_chromosomes : Int
  crossBytes : List Nat
  mutBytes : List Nat
  migBytes : List Nat
  scheme : Int
  elitism : Int
  island : Int
  generation_hook : CB
  iteration_hook : CB
  data_destructor : Bool
  data_ref_incrementor : Bool
  chromosome_constructor : CB
  chromosome_destructor : CB
  chromosome_replicate : CB
  chromosome_to_bytes : CB
  chromosome_from_bytes : CB
  chromosome_to_string : CB
  evaluate : CB
  seed : CB
  adapt : CB
  select_one : CB
  select_two : CB
  mutate : CB
  crossover : CB
  replace : CB
deriving DecidableEq

/-- The `id[18]` array computed by ga_population_write: slots 0..1 the
hooks, slots 2..3 the phenome hooks (no built-ins exist for these, so the
code writes -1 when set, 0 when NULL), slots 4..17 the remaining callbacks
through ga_funclookup_ptr_to_id. -/
def callback_ids (w : WPop) : List Int :=
  [ga_funclookup_ptr_to_id w.generation_hook,
   ga_funclookup_ptr_to_id w.iteration_hook,
   if w.data_destructor then -1 else 0,
   if w.data_ref_incrementor then -1 else 0,
   ga_funclookup_ptr_to_id w.chromosome_constructor,
   ga_funclookup_ptr_to_id w.chromosome_destructor,
   ga_funclookup_ptr_to_id w.chromosome_replicate,
   ga_funclookup_ptr_to_id w.chromosome_to_bytes,
   ga_funclookup_ptr_to_id w.chromosome_from_bytes,
   ga_funclookup_ptr_to_id w.chromosome_to_string,
   ga_funclookup_ptr_to_id w.evaluate,
   ga_funclookup_ptr_to_id w.seed,
   ga_funclookup_ptr_to_id w.adapt,
   ga_funclookup_ptr_to_id w.select_one,
   ga_funclookup_ptr_to_id w.select_two,
   ga_funclookup_ptr_to_id w.mutate,
   ga_funclookup_ptr_to_id w.crossover,
   ga_funclookup_ptr_to_id w.replace]

/-- gaul_write_entity: the 8 fitness bytes, the buffer length as an
`unsigned int`, then the buffer returned by `chromosome_to_bytes`. -/
def gaul_write_entity (e : WEntity) : List Nat :=
  e.fitnessBytes ++ u32bytes (e.chromBytes.length : Int) ++ e.chromBytes

/-- Everything ga_population_write emits before the trailer, in the exact
order of its `fwrite` calls: magic (strlen bytes, no terminator), 64-byte
version field, size / stable_size / num_chromosomes / len_chromosomes,
the three rate doubles, scheme / elitism / island, the `id[18]` array,
then each live entity in rank order. -/
def ga_population_write_body (w : WPop) (version : List Nat) : List Nat :=
  magic002 ++ pad64 version ++
  u32bytes (w.entities.length : Int) ++ u32bytes w.stable_size ++
  u32bytes w.num_chromosomes ++ u32bytes w.len_chromosomes ++
  w.crossBytes ++ w.mutBytes ++ w.migBytes ++
  u32bytes w.scheme ++ u32bytes w.elitism ++ u32bytes w.island ++
  (callback_ids w).flatMap u32bytes ++
  w.entities.flatMap gaul_write_entity

/-- ga_population_write of ga_core.c: the body above followed by the
4-byte `"END\0"` trailer. -/
def ga_population_write (w : WPop) (version : List Nat) : List Nat :=
  ga_population_write_body w version ++ endTrailer

/-- Outcome of a snapshot read: a value plus the unconsumed stream, a
fatal `die()` (which aborts the process instead of returning), an attempt
to `fread` past the end of the stream (the C code would read garbage
there; no theorem below exercises this case), or a call through a NULL
callback pointer (the C crashes; reached when the `chromosome_from_bytes`
slot of the snapshot resolves to NULL). -/
inductive ReadResult (α : Type) : Type
  | ok (val : α) (rest : List Nat)
  | fatal (msg : String)
  | underflow
  | nullcall
deriving DecidableEq

/-- Take `n` bytes off the stream, or fail when fewer remain. -/
def readBytes (n : Nat) (s : List Nat) : Option (List Nat × List Nat) :=
  if n ≤ s.length then some (s.take n, s.drop n) else none

/-- Continuation-style `fread`: feeds the bytes read and the remaining
stream to `k`. -/
def pread {α : Type} (n : Nat) (s : List Nat)
    (k : List Nat → List Nat → ReadResult α) : ReadResult α :=
  match readBytes n s with
  | none => ReadResult.underflow
  | some (b, rest) => k b rest

/-- A population as reconstructed by the snapshot readers.  Callback slots
are kept as the raw ids read from the file (the C resolves them through
ga_funclookup_id_to_ptr).  `island` stays at the -1 set by
ga_population_new unless the 002 reader overwrites it. -/
structure RPop : Type where
  stable_size : Int
  num_chromosomes : Int
  len_chromosomes : Int
  crossBytes : List Nat
  mutBytes : List Nat
  migBytes : List Nat
  scheme : Int
  elitism : Int
  island : Int
  cbIds : List Int
  entities : List WEntity
deriving DecidableEq

/-- The 18 callback ids of the `fread(id, sizeof(int), 18, fp)` block. -/
def decode_id_block (b : List Nat) : List Int :=
  (List.range 18).map (fun i => decodeI32 ((b.drop (4 * i)).take 4))

/-- gaul_read_entity: first `entity = ga_get_free_entity(pop)`, whose
ga_entity_setup dies when the population's chromosome constructor
(resolved from the stored callback id) is NULL; then 8 fitness bytes, an
`unsigned int` buffer length, and that many buffer bytes handed to
`pop->chromosome_from_bytes` — a call through NULL when that slot did not
resolve.  `cc` and `cfb` are the resolved constructor and from_bytes
pointers. -/
def gaul_read_entity {α : Type} (cc cfb : Option Nat) (s : List Nat)
    (k : WEntity → List Nat → ReadResult α) : ReadResult α :=
  match cc with
  | none => ReadResult.fatal "Chromosome constructor not defined."
  | some _ =>
    pread 8 s fun fit s1 =>
    pread 4 s1 fun lb s2 =>
    pread (decodeU32 lb) s2 fun chrom s3 =>
    match cfb with
    | none => ReadResult.nullcall
    | some _ => k ⟨fit, chrom⟩ s3

/-- The `for (i=0; i<size; i++) gaul_read_entity(fp, pop);` loop. -/
def read_entities {α : Type} (cc cfb : Option Nat) (n : Nat) (s : List Nat)
    (k : List WEntity → List Nat → ReadResult α) : ReadResult α :=
  match n with
  | 0 => k [] s
  | m + 1 =>
    gaul_read_entity cc cfb s fun e s1 =>
    read_entities cc cfb m s1 fun es s2 => k (e :: es) s2

/-- Number of entity records the readers consume: `for (i=0; i<size; i++)`
with a signed `size`, so a non-positive stored size reads none. -/
def entityCount (size : Int) : Nat := if size ≤ 0 then 0 else size.toNat

/-- ga_population_read_001 of ga_core.c, the pre-002 compatibility reader:
checks the 001 magic (fatal mismatch), skips the 64-byte version field,
reads size / stable_size / num_chromosomes / len_chromosomes, builds a
population via ga_population_new (leaving `island` at -1: no island field
is read), reads the three rates, scheme and elitism, the 18 callback ids,
`size` entity records, and finally requires the `"END\0"` trailer. -/
def ga_population_read_001 (s : List Nat) : ReadResult RPop :=
  pread magic001.length s fun m s0 =>
  if m ≠ magic001 then ReadResult.fatal "Incompatible format for population file."
  else
  pread 64 s0 fun _ s1 =>
  pread 4 s1 fun szb s2 =>
  pread 4 s2 fun stb s3 =>
  pread 4 s3 fun ncb s4 =>
  pread 4 s4 fun lcb s5 =>
  pread 8 s5 fun cr s6 =>
  pread 8 s6 fun mu s7 =>
  pread 8 s7 fun mi s8 =>
  pread 4 s8 fun schb s9 =>
  pread 4 s9 fun elb s10 =>
  pread (4 * 18) s10 fun idb s11 =>
  read_entities (ga_funclookup_id_to_ptr ((decode_id_block idb).getD 4 0))
    (ga_funclookup_id_to_ptr ((decode_id_block idb).getD 8 0))
    (entityCount (decodeI32 szb)) s11 fun es s12 =>
  pread 4 s12 fun tr _s13 =>
  if tr ≠ endTrailer then ReadResult.fatal "Corrupt population file?"
  else
  ReadResult.ok
    { stable_size := decodeI32 stb
      num_chromosomes := decodeI32 ncb
      len_chromosomes := decodeI32 lcb
      crossBytes := cr
      mutBytes := mu
      migBytes := mi
      scheme := decodeI32 schb
      elitism := decodeI32 elb
      island := -1
      cbIds := decode_id_block idb
      entities := es } _s13

/-- ga_population_read of ga_core.c: on a 002 magic reads the same fields
as the 001 reader plus the `island` field after elitism; any other leading
bytes make it close the file and hand the whole stream to
ga_population_read_001. -/
def ga_population_read (s : List Nat) : ReadResult RPop :=
  pread magic002.length s fun m s0 =>
  if m ≠ magic002 then ga_population_read_001 s
  else
  pread 64 s0 fun _ s1 =>
  pread 4 s1 fun szb s2 =>
  pread 4 s2 fun stb s3 =>
  pread 4 s3 fun ncb s4 =>
  pread 4 s4 fun lcb s5 =>
  pread 8 s5 fun cr s6 =>
  pread 8 s6 fun mu s7 =>
  pread 8 s7 fun mi s8 =>
  pread 4 s8 fun schb s9 =>
  pread 4 s9 fun elb s10 =>
  pread 4 s10 fun isb s11 =>
  pread (4 * 18) s11 fun idb s12 =>
  read_entities (ga_funclookup_id_to_ptr ((decode_id_block idb).getD 4 0))
    (ga_funclookup_id_to_ptr ((decode_id_block idb).getD 8 0))
    (entityCount (decodeI32 szb)) s12 fun es s13 =>
  pread 4 s13 fun tr _s14 =>
  if tr ≠ endTrailer then ReadResult.fatal "Corrupt population file?"
  else
  ReadResult.ok
    { stable_size := decodeI32 stb
      num_chromosomes := decodeI32 ncb
      len_chromosomes := decodeI32 lcb
      crossBytes := cr
      mutBytes := mu
      migBytes := mi
      scheme := decodeI32 schb
      elitism := decodeI32 elb
      island := decodeI32 isb
      cbIds := decode_id_block idb
      entities := es } _s14

/-- Modelled from the spec (and from the field order of
ga_population_read_001; the sources contain no 001 writer): a population
snapshot in the older `"FORMAT: GAUL POPULATION 001"` variant, which is
the 002 layout without the `island` field. -/
def snapshot001_bytes (w : WPop) (version : List Nat) : List Nat :=
  magic001 ++ pad64 version ++
  u32bytes (w.entities.length : Int) ++ u32bytes w.stable_size ++
  u32bytes w.num_chromosomes ++ u32bytes w.len_chromosomes ++
  w.crossBytes ++ w.mutBytes ++ w.migBytes ++
  u32bytes w.scheme ++ u32bytes w.elitism ++
  (callback_ids w).flatMap u32bytes ++
  w.entities.flatMap gaul_write_entity ++ endTrailer

/-- The byte layout stated by section 6 of the specification (items 1-8),
with the magic length corrected from 28 to 27: magic, 64-byte NUL-padded
version field, four 32-bit integers, three 64-bit rate doubles, three
32-bit integers, the 18 callback-slot identifiers, the entity records in
rank order (64-bit fitness, 32-bit length, buffer), and the 4-byte
trailer. -/
def snapshot_layout_spec (w : WPop) (version : List Nat) : List Nat :=
  strBytes "FORMAT: GAUL POPULATION 002" ++
  pad64 version ++
  (u32bytes (w.entities.length : Int) ++ u32bytes w.stable_size ++
    u32bytes w.num_chromosomes ++ u32bytes w.len_chromosomes) ++
  (w.crossBytes ++ w.mutBytes ++ w.migBytes) ++
  (u32bytes w.scheme ++ u32bytes w.elitism ++ u32bytes w.island) ++
  (callback_ids w).flatMap u32bytes ++
  w.entities.flatMap
    (fun e => e.fitnessBytes ++ u32bytes (e.chromBytes.length : Int) ++ e.chromBytes) ++
  (strBytes "END" ++ [0])

/-! ### ga_allele_search (ga_utility.c) -/

/-- GA_MIN_FITNESS, the "never evaluated" sentinel, sits below every
fitness the evaluate callback can produce. -/
def GA_MIN_FITNESS : WithBot Int := ⊥

/-- Write allele value `v` at locus `pt` of chromosome `cid`:
`((int *)current->chromosome[chromosomeid])[point] = val;`. -/
def setAllele (g : List (List Int)) (cid pt : Nat) (v : Int) : List (List Int) :=
  g.set cid ((g.getD cid []).set pt v)

/-- The values visited by `for (val = min_val; val < max_val; val++)`. -/
def intRange (lo hi : Int) : List Int :=
  (List.range (hi - lo).toNat).map (fun k : Nat => ((lo + k : Int)))

/-- State of the ga_allele_search loop: the `best` entity (genome and
fitness) and the genome of the `current` working entity. -/
structure ASearchState : Type where
  best : List (List Int)
  best_fitness : WithBot Int
  current : List (List Int)
deriving DecidableEq

/-- One iteration of the ga_allele_search loop: poke `val` into the locus
of the working entity, evaluate it, and either promote it to `best` (on a
strict fitness improvement) or copy `best` back over `current`. -/
def allele_step (ev : List (List Int) → Int) (cid pt : Nat)
    (st : ASearchState) (val : Int) : ASearchState :=
  let cur := setAllele st.current cid pt val
  let f : WithBot Int := ((ev cur : Int) : WithBot Int)
  if st.best_fitness < f then ⟨cur, f, cur⟩ else ⟨st.best, st.best_fitness, st.best⟩

/-- ga_allele_search of ga_utility.c, for a supplied (non-NULL) initial
entity: `best` and `current` both start as copies of `initial`, `best`'s
fitness is reset to GA_MIN_FITNESS, and the loop scans `[min_val, max_val)`
at the single locus.  Returns the final best genome and fitness. -/
def ga_allele_search (ev : List (List Int) → Int) (cid pt : Nat)
    (lo hi : Int) (initial : List (List Int)) : List (List Int) × WithBot Int :=
  let st := (intRange lo hi).foldl (allele_step ev cid pt)
    ⟨initial, GA_MIN_FITNESS, initial⟩
  (st.best, st.best_fitness)

/-- Well-formedness of a writer-side population: the opaque `double`
blocks really are 8 bytes, the entity count fits a signed 32-bit `int`
(`pop->size` is an `int`) and each chromosome buffer length fits an
`unsigned int`. -/
def WPopWF (w : WPop) : Prop :=
  w.crossBytes.length = 8 ∧ w.mutBytes.length = 8 ∧ w.migBytes.length = 8 ∧
  w.entities.length < 2147483648 ∧
  (∀ e ∈ w.entities, e.fitnessBytes.length = 8 ∧ e.chromBytes.length < 4294967296) ∧
  (-2147483648 ≤ w.stable_size ∧ w.stable_size < 2147483648) ∧
  (-2147483648 ≤ w.num_chromosomes ∧ w.num_chromosomes < 2147483648) ∧
  (-2147483648 ≤ w.len_chromosomes ∧ w.len_chromosomes < 2147483648) ∧
  (-2147483648 ≤ w.scheme ∧ w.scheme < 2147483648) ∧
  (-2147483648 ≤ w.elitism ∧ w.elitism < 2147483648) ∧
  (-2147483648 ≤ w.island ∧ w.island < 2147483648) ∧
  (-2147483648 ≤ ga_funclookup_ptr_to_id w.chromosome_constructor ∧
    ga_funclookup_ptr_to_id w.chromosome_constructor < 2147483648) ∧
  (-2147483648 ≤ ga_funclookup_ptr_to_id w.chromosome_from_bytes ∧
    ga_funclookup_ptr_to_id w.chromosome_from_bytes < 2147483648)

instance (w : WPop) : Decidable (WPopWF w) := by
  unfold WPopWF; infer_instance

/-- A small concrete population used to exercise the snapshot functions. -/
def exampleWPop : WPop :=
  { entities := [⟨[1, 2, 3, 4, 5, 6, 7, 8], [9, 9]⟩, ⟨[8, 7, 6, 5, 4, 3, 2, 1], []⟩]
    stable_size := 20
    num_chromosomes := 1
    len_chromosomes := 10
    crossBytes := [0, 0, 0, 0, 0, 0, 240, 63]
    mutBytes := [154, 153, 153, 153, 153, 153, 185, 63]
    migBytes := [0, 0, 0, 0, 0, 0, 224, 63]
    scheme := 0
    elitism := 2
    island := -1
    generation_hook := CB.null
    iteration_hook := CB.null
    data_destructor := false
    data_ref_incrementor := false
    chromosome_constructor := CB.builtin 30
    chromosome_destructor := CB.builtin 31
    chromosome_replicate := CB.builtin 32
    chromosome_to_bytes := CB.builtin 33
    chromosome_from_bytes := CB.builtin 34
    chromosome_to_string := CB.external
    evaluate := CB.external
    seed := CB.external
    adapt := CB.null
    select_one := CB.builtin 1
    select_two := CB.builtin 2
    mutate := CB.builtin 40
    crossover := CB.builtin 15
    replace := CB.null }

/-- A small concrete pool population: `ga_population_new(1, 1, 1)` with a
chromosome constructor assigned, as user code does before seeding. -/
def examplePop : population :=
  { (ga_population_new 1 1 1 ⟨[]⟩).1 with chromosome_constructor := some 7 }

/-- The pool state reached from `examplePop` after three
ga_get_free_entity calls: three live entities, one free slot. -/
def examplePop3 : population :=
  { examplePop with
      size := 3
      free_index := 1
      entity_array := [none, some 2, some 1, some 0]
      entity_iarray := [some 0, some 1, some 2, none]
      next_ptr := 3 }

/-- `exampleWPop` with a user-supplied (external) chromosome constructor:
its snapshot stores constructor id -1, which the readers resolve to NULL,
so reading the first entity record dies. -/
def exampleWPopExt : WPop :=
  { exampleWPop with chromosome_constructor := CB.external }

/-! ### Theorems.  First, byte-level helper lemmas. -/

theorem u32bytes_length (n : Int) : (u32bytes n).length = 4 := rfl

theorem decodeU32_cons (a b c d : Nat) :
    decodeU32 [a, b, c, d] =
      a % 256 + 256 * (b % 256) + 65536 * (c % 256) + 16777216 * (d % 256) := rfl

theorem u32bytes_eq (n : Int) :
    u32bytes n = [(n % 4294967296).toNat % 256, (n % 4294967296).toNat / 256 % 256,
      (n % 4294967296).toNat / 65536 % 256, (n % 4294967296).toNat / 16777216 % 256] := rfl

theorem decodeU32_u32bytes (n : Nat) (h : n < 4294967296) :
    decodeU32 (u32bytes (n : Int)) = n := by
  rw [u32bytes_eq, decodeU32_cons]
  have hm : ((n : Int) % 4294967296).toNat = n % 4294967296 := by omega
  rw [hm]
  omega

theorem decodeI32_u32bytes (n : Int) (h1 : -2147483648 ≤ n) (h2 : n < 2147483648) :
    decodeI32 (u32bytes n) = n := by
  rw [decodeI32, u32bytes_eq, decodeU32_cons]
  have hm : ((n % 4294967296).toNat : Int) = n % 4294967296 := by omega
  omega

theorem pad64_length (v : List Nat) : (pad64 v).length = 64 := by
  simp only [pad64, List.length_append, List.length_take, List.length_replicate]
  omega

theorem pread_append {α : Type} (n : Nat) (a rest : List Nat)
    (k : List Nat → List Nat → ReadResult α) (h : a.length = n) :
    pread n (a ++ rest) k = k a rest := by
  subst h
  simp [pread, readBytes, List.take_left, List.drop_left]

theorem pread_exact {α : Type} (n : Nat) (s : List Nat)
    (k : List Nat → List Nat → ReadResult α) (h : s.length = n) :
    pread n s k = k s [] := by
  subst h
  simp [pread, readBytes]

theorem magic002_length : magic002.length = 27 := rfl

theorem magic001_length : magic001.length = 27 := rfl

theorem entityCount_of_nat (n : Nat) (h : n < 2147483648) :
    entityCount (decodeI32 (u32bytes (n : Int))) = n := by
  rw [decodeI32_u32bytes (n : Int) (by omega) (by omega)]
  simp [entityCount]
  omega

theorem funclookup_id_to_ptr_pos (id : Int) (h : 0 < id) :
    ga_funclookup_id_to_ptr id = some id.toNat := by
  rw [ga_funclookup_id_to_ptr, if_neg (by omega)]

theorem funclookup_id_to_ptr_nonpos (id : Int) (h : id ≤ 0) :
    ga_funclookup_id_to_ptr id = none := by
  rw [ga_funclookup_id_to_ptr, if_pos h]

theorem decode_id_block_get4 (w : WPop) :
    (decode_id_block ((callback_ids w).flatMap u32bytes)).getD 4 0 =
      decodeI32 (u32bytes (ga_funclookup_ptr_to_id w.chromosome_constructor)) := rfl

theorem decode_id_block_get8 (w : WPop) :
    (decode_id_block ((callback_ids w).flatMap u32bytes)).getD 8 0 =
      decodeI32 (u32bytes (ga_funclookup_ptr_to_id w.chromosome_from_bytes)) := rfl

theorem read_entities_flatMap {α : Type} (cc cf : Nat) (es : List WEntity)
    (rest : List Nat) (k : List WEntity → List Nat → ReadResult α)
    (h : ∀ e ∈ es, e.fitnessBytes.length = 8 ∧ e.chromBytes.length < 4294967296) :
    read_entities (some cc) (some cf) es.length (es.flatMap gaul_write_entity ++ rest) k =
      k es rest := by
  induction es generalizing k with
  | nil => simp [read_entities]
  | cons e es ih =>
    have he := h e (by simp)
    simp only [List.flatMap_cons, List.append_assoc, List.length_cons]
    rw [read_entities, gaul_read_entity]
    rw [show gaul_write_entity e ++ (es.flatMap gaul_write_entity ++ rest) =
      e.fitnessBytes ++ (u32bytes (e.chromBytes.length : Int) ++
        (e.chromBytes ++ (es.flatMap gaul_write_entity ++ rest))) by
      simp [gaul_write_entity]]
    rw [pread_append _ _ _ _ he.1]
    rw [pread_append _ _ _ _ (u32bytes_length _)]
    rw [decodeU32_u32bytes _ he.2]
    rw [pread_append _ _ _ _ rfl]
    rw [ih _ (fun e he' => h e (by simp [he']))]

theorem read_entities_none_cc {α : Type} (cfb : Option Nat) (m : Nat) (s : List Nat)
    (k : List WEntity → List Nat → ReadResult α) :
    read_entities none cfb (m + 1) s k =
      ReadResult.fatal "Chromosome constructor not defined." := by
  rw [read_entities, gaul_read_entity]

theorem idblock_length (w : WPop) : ((callback_ids w).flatMap u32bytes).length = 72 := by
  simp [callback_ids, u32bytes_eq]

theorem read_after_body (w : WPop) (version t : List Nat) (hw : WPopWF w)
    (hcc : 0 < ga_funclookup_ptr_to_id w.chromosome_constructor)
    (hcfb : 0 < ga_funclookup_ptr_to_id w.chromosome_from_bytes)
    (ht : t.length = 4) :
    ga_population_read (ga_population_write_body w version ++ t) =
      if t = endTrailer then
        ReadResult.ok
          { stable_size := decodeI32 (u32bytes w.stable_size)
            num_chromosomes := decodeI32 (u32bytes w.num_chromosomes)
            len_chromosomes := decodeI32 (u32bytes w.len_chromosomes)
            crossBytes := w.crossBytes
            mutBytes := w.mutBytes
            migBytes := w.migBytes
            scheme := decodeI32 (u32bytes w.scheme)
            elitism := decodeI32 (u32bytes w.elitism)
            island := decodeI32 (u32bytes w.island)
            cbIds := decode_id_block ((callback_ids w).flatMap u32bytes)
            entities := w.entities } []
      else ReadResult.fatal "Corrupt population file?" := by
  obtain ⟨h1, h2, h3, h4, h5, -, -, -, -, -, -, hccr, hcfr⟩ := hw
  rw [ga_population_write_body]
  simp only [List.append_assoc]
  rw [ga_population_read]
  rw [pread_append _ _ _ _ rfl]
  rw [if_neg (by simp)]
  rw [pread_append _ _ _ _ (pad64_length version)]
  rw [pread_append _ _ _ _ (u32bytes_length _)]
  rw [pread_append _ _ _ _ (u32bytes_length _)]
  rw [pread_append _ _ _ _ (u32bytes_length _)]
  rw [pread_append _ _ _ _ (u32bytes_length _)]
  rw [pread_append _ _ _ _ h1]
  rw [pread_append _ _ _ _ h2]
  rw [pread_append _ _ _ _ h3]
  rw [pread_append _ _ _ _ (u32bytes_length _)]
  rw [pread_append _ _ _ _ (u32bytes_length _)]
  rw [pread_append _ _ _ _ (u32bytes_length _)]
  rw [pread_append _ _ _ _ (idblock_length w)]
  rw [decode_id_block_get4, decode_id_block_get8]
  rw [decodeI32_u32bytes _ hccr.1 hccr.2, decodeI32_u32bytes _ hcfr.1 hcfr.2]
  rw [funclookup_id_to_ptr_pos _ hcc, funclookup_id_to_ptr_pos _ hcfb]
  rw [entityCount_of_nat _ h4]
  rw [read_entities_flatMap _ _ _ _ _ h5]
  rw [show t = t ++ [] by simp]
  rw [pread_append _ _ _ _ ht]
  by_cases hend : t = endTrailer
  · simp [hend]
  · simp [hend]

theorem read001_of_snapshot001 (w : WPop) (version : List Nat) (hw : WPopWF w)
    (hcc : 0 < ga_funclookup_ptr_to_id w.chromosome_constructor)
    (hcfb : 0 < ga_funclookup_ptr_to_id w.chromosome_from_bytes) :
    ga_population_read (snapshot001_bytes w version) =
      ReadResult.ok
        { stable_size := decodeI32 (u32bytes w.stable_size)
          num_chromosomes := decodeI32 (u32bytes w.num_chromosomes)
          len_chromosomes := decodeI32 (u32bytes w.len_chromosomes)
          crossBytes := w.crossBytes
          mutBytes := w.mutBytes
          migBytes := w.migBytes
          scheme := decodeI32 (u32bytes w.scheme)
          elitism := decodeI32 (u32bytes w.elitism)
          island := -1
          cbIds := decode_id_block ((callback_ids w).flatMap u32bytes)
          entities := w.entities } [] := by
  obtain ⟨h1, h2, h3, h4, h5, -, -, -, -, -, -, hccr, hcfr⟩ := hw
  rw [snapshot001_bytes]
  simp only [List.append_assoc]
  rw [ga_population_read]
  rw [show magic002.length = magic001.length from rfl]
  rw [pread_append _ _ _ _ rfl]
  rw [if_pos (by decide)]
  rw [ga_population_read_001]
  rw [pread_append _ _ _ _ rfl]
  rw [if_neg (by simp)]
  rw [pread_append _ _ _ _ (pad64_length version)]
  rw [pread_append _ _ _ _ (u32bytes_length _)]
  rw [pread_append _ _ _ _ (u32bytes_length _)]
  rw [pread_append _ _ _ _ (u32bytes_length _)]
  rw [pread_append _ _ _ _ (u32bytes_length _)]
  rw [pread_append _ _ _ _ h1]
  rw [pread_append _ _ _ _ h2]
  rw [pread_append _ _ _ _ h3]
  rw [pread_append _ _ _ _ (u32bytes_length _)]
  rw [pread_append _ _ _ _ (u32bytes_length _)]
  rw [pread_append _ _ _ _ (idblock_length w)]
  rw [decode_id_block_get4, decode_id_block_get8]
  rw [decodeI32_u32bytes _ hccr.1 hccr.2, decodeI32_u32bytes _ hcfr.1 hcfr.2]
  rw [funclookup_id_to_ptr_pos _ hcc, funclookup_id_to_ptr_pos _ hcfb]
  rw [entityCount_of_nat _ h4]
  rw [read_entities_flatMap _ _ _ _ _ h5]
  rw [pread_exact 4 endTrailer _ (by rfl)]
  rw [if_neg (by simp)]

theorem read_after_body_noconstructor (w : WPop) (version t : List Nat) (hw : WPopWF w)
    (hcc0 : ga_funclookup_ptr_to_id w.chromosome_constructor ≤ 0)
    (hne : w.entities ≠ []) :
    ga_population_read (ga_population_write_body w version ++ t) =
      ReadResult.fatal "Chromosome constructor not defined." := by
  obtain ⟨h1, h2, h3, h4, h5, -, -, -, -, -, -, hccr, hcfr⟩ := hw
  obtain ⟨e, es, he⟩ : ∃ e es, w.entities = e :: es := by
    cases hE : w.entities with
    | nil => exact absurd hE hne
    | cons e es => exact ⟨e, es, rfl⟩
  rw [ga_population_write_body]
  simp only [List.append_assoc]
  rw [ga_population_read]
  rw [pread_append _ _ _ _ rfl]
  rw [if_neg (by simp)]
  rw [pread_append _ _ _ _ (pad64_length version)]
  rw [pread_append _ _ _ _ (u32bytes_length _)]
  rw [pread_append _ _ _ _ (u32bytes_length _)]
  rw [pread_append _ _ _ _ (u32bytes_length _)]
  rw [pread_append _ _ _ _ (u32bytes_length _)]
  rw [pread_append _ _ _ _ h1]
  rw [pread_append _ _ _ _ h2]
  rw [pread_append _ _ _ _ h3]
  rw [pread_append _ _ _ _ (u32bytes_length _)]
  rw [pread_append _ _ _ _ (u32bytes_length _)]
  rw [pread_append _ _ _ _ (u32bytes_length _)]
  rw [pread_append _ _ _ _ (idblock_length w)]
  rw [decode_id_block_get4]
  rw [decodeI32_u32bytes _ hccr.1 hccr.2]
  rw [funclookup_id_to_ptr_nonpos _ hcc0]
  rw [entityCount_of_nat _ h4]
  rw [he, List.length_cons]
  rw [read_entities_none_cc]

/-- C3 counterexample: the snapshot magic `"FORMAT: GAUL POPULATION 002"`
is 27 bytes long, not 28 as the claim states; the writer emits exactly
those 27 bytes (and no terminator) at the head of the stream. -/
theorem ga_population_write_magic_is_27_not_28 :
    (strBytes "FORMAT: GAUL POPULATION 002").length = 27 ∧
    ¬ (strBytes "FORMAT: GAUL POPULATION 002").length = 28 ∧
    (ga_population_write exampleWPop [118, 49]).take 27 = magic002 := by
  refine ⟨rfl, by decide, ?_⟩
  decide

/-- C3 (amended: the magic is 27 bytes, not 28): ga_population_write emits
exactly the byte sequence of the specification's layout — 27-byte magic,
64-byte NUL-padded version field, the four 32-bit sizes, the three rate
doubles, the three 32-bit scheme/elitism/island fields, the 18 32-bit
callback-slot identifiers, each live entity in rank order as 64-bit
fitness, 32-bit length and buffer, and the 4-byte `"END\0"` trailer. -/
theorem ga_population_write_layout (w : WPop) (version : List Nat)
    (hv : version.length ≤ 63) :
    ga_population_write w version = snapshot_layout_spec w version ∧
    magic002.length = 27 ∧
    (pad64 version).length = 64 ∧
    (∀ i, i < 64 → version.length ≤ i → (pad64 version).getD i 1 = 0) ∧
    (callback_ids w).length = 18 := by
  refine ⟨?_, rfl, pad64_length version, ?_, rfl⟩
  · have hfm : (fun e : WEntity =>
        e.fitnessBytes ++ (u32bytes (e.chromBytes.length : Int) ++ e.chromBytes)) =
        gaul_write_entity := by
      funext e
      simp [gaul_write_entity]
    simp [ga_population_write, ga_population_write_body, snapshot_layout_spec,
      magic002, endTrailer, List.append_assoc, hfm]
  · intro i h64 hvi
    rw [pad64, List.take_of_length_le hv]
    rw [List.getD_append_right version _ 1 i hvi]
    have hlt : i - version.length < (List.replicate (64 - min version.length 63) (0 : Nat)).length := by
      simp
      omega
    rw [List.getD_eq_getElem _ 1 hlt]
    simp

theorem ga_population_write_layout_witness :
    ([118, 49] : List Nat).length ≤ 63 ∧
    (ga_population_write exampleWPop [118, 49] = snapshot_layout_spec exampleWPop [118, 49] ∧
      magic002.length = 27 ∧
      (pad64 [118, 49]).length = 64 ∧
      (∀ i, i < 64 → ([118, 49] : List Nat).length ≤ i → (pad64 [118, 49]).getD i 1 = 0) ∧
      (callback_ids exampleWPop).length = 18) :=
  ⟨by decide, ga_population_write_layout exampleWPop [118, 49] (by decide)⟩

/-- C4 (amended: provided the stored chromosome-constructor and
chromosome-from-bytes ids resolve to built-in operators, i.e. the stored
ids are positive — for an external or NULL constructor the stored id is
-1 or 0, ga_funclookup_id_to_ptr yields NULL, and the reader die()s
"Chromosome constructor not defined." inside ga_entity_setup on the first
entity record): ga_population_read accepts both snapshot versions: a 002
stream is read including the island field, a 001 stream is handed to the
compatibility reader, which reads the same fields except that no island
field is consumed (the whole stream is consumed in both cases and the 001
population keeps the island value -1 of ga_population_new); the resulting
population carries the stored stable_size, num_chromosomes,
len_chromosomes, rates, scheme and elitism, and one entity per stored
record. -/
theorem ga_population_read_accepts_both_versions (w : WPop) (version : List Nat)
    (hw : WPopWF w)
    (hcc : 0 < ga_funclookup_ptr_to_id w.chromosome_constructor)
    (hcfb : 0 < ga_funclookup_ptr_to_id w.chromosome_from_bytes) :
    (∃ ids, ga_population_read (ga_population_write w version) =
      ReadResult.ok
        { stable_size := w.stable_size
          num_chromosomes := w.num_chromosomes
          len_chromosomes := w.len_chromosomes
          crossBytes := w.crossBytes
          mutBytes := w.mutBytes
          migBytes := w.migBytes
          scheme := w.scheme
          elitism := w.elitism
          island := w.island
          cbIds := ids
          entities := w.entities } []) ∧
    (∃ ids, ga_population_read (snapshot001_bytes w version) =
      ReadResult.ok
        { stable_size := w.stable_size
          num_chromosomes := w.num_chromosomes
          len_chromosomes := w.len_chromosomes
          crossBytes := w.crossBytes
          mutBytes := w.mutBytes
          migBytes := w.migBytes
          scheme := w.scheme
          elitism := w.elitism
          island := -1
          cbIds := ids
          entities := w.entities } []) := by
  obtain ⟨h1, h2, h3, h4, h5, hst, hnc, hlc, hsc, hel, his, hccr, hcfr⟩ := hw
  constructor
  · refine ⟨decode_id_block ((callback_ids w).flatMap u32bytes), ?_⟩
    rw [ga_population_write,
      read_after_body w version endTrailer
        ⟨h1, h2, h3, h4, h5, hst, hnc, hlc, hsc, hel, his, hccr, hcfr⟩ hcc hcfb rfl,
      if_pos rfl, decodeI32_u32bytes _ hst.1 hst.2, decodeI32_u32bytes _ hnc.1 hnc.2,
      decodeI32_u32bytes _ hlc.1 hlc.2, decodeI32_u32bytes _ hsc.1 hsc.2,
      decodeI32_u32bytes _ hel.1 hel.2, decodeI32_u32bytes _ his.1 his.2]
  · refine ⟨decode_id_block ((callback_ids w).flatMap u32bytes), ?_⟩
    rw [read001_of_snapshot001 w version
        ⟨h1, h2, h3, h4, h5, hst, hnc, hlc, hsc, hel, his, hccr, hcfr⟩ hcc hcfb,
      decodeI32_u32bytes _ hst.1 hst.2, decodeI32_u32bytes _ hnc.1 hnc.2,
      decodeI32_u32bytes _ hlc.1 hlc.2, decodeI32_u32bytes _ hsc.1 hsc.2,
      decodeI32_u32bytes _ hel.1 hel.2]

theorem ga_population_read_accepts_both_versions_witness :
    WPopWF exampleWPop ∧
    0 < ga_funclookup_ptr_to_id exampleWPop.chromosome_constructor ∧
    0 < ga_funclookup_ptr_to_id exampleWPop.chromosome_from_bytes ∧
    ((∃ ids, ga_population_read (ga_population_write exampleWPop [118, 49]) =
      ReadResult.ok
        { stable_size := exampleWPop.stable_size
          num_chromosomes := exampleWPop.num_chromosomes
          len_chromosomes := exampleWPop.len_chromosomes
          crossBytes := exampleWPop.crossBytes
          mutBytes := exampleWPop.mutBytes
          migBytes := exampleWPop.migBytes
          scheme := exampleWPop.scheme
          elitism := exampleWPop.elitism
          island := exampleWPop.island
          cbIds := ids
          entities := exampleWPop.entities } []) ∧
    (∃ ids, ga_population_read (snapshot001_bytes exampleWPop [118, 49]) =
      ReadResult.ok
        { stable_size := exampleWPop.stable_size
          num_chromosomes := exampleWPop.num_chromosomes
          len_chromosomes := exampleWPop.len_chromosomes
          crossBytes := exampleWPop.crossBytes
          mutBytes := exampleWPop.mutBytes
          migBytes := exampleWPop.migBytes
          scheme := exampleWPop.scheme
          elitism := exampleWPop.elitism
          island := -1
          cbIds := ids
          entities := exampleWPop.entities } [])) :=
  ⟨by decide, by decide, by decide,
    ga_population_read_accepts_both_versions exampleWPop [118, 49]
      (by decide) (by decide) (by decide)⟩

set_option maxRecDepth 8000 in
/-- C4 counterexample: on the snapshot of a population whose chromosome
constructor is an external (unregistered) function, the stored constructor
id is -1, ga_funclookup_id_to_ptr resolves it to NULL, and reading the
snapshot back aborts in ga_entity_setup ("Chromosome constructor not
defined.") on the first entity record instead of returning the
population. -/
theorem ga_population_read_external_constructor_dies_cex :
    ga_population_read (ga_population_write exampleWPopExt [118, 49]) =
      ReadResult.fatal "Chromosome constructor not defined." := by decide

theorem pread_of_le {α : Type} (n : Nat) (s : List Nat)
    (k : List Nat → List Nat → ReadResult α) (h : n ≤ s.length) :
    pread n s k = k (s.take n) (s.drop n) := by
  simp [pread, readBytes, h]

set_option maxRecDepth 8000 in
/-- C5 counterexample: on a snapshot whose trailer is not `"END\0"` the
read does not produce an error return — it dies fatally ("Corrupt
population file?"), aborting the process without destroying the
partially-built population; a stream matching neither magic likewise dies
fatally inside the compatibility reader. -/
theorem ga_population_read_corrupt_dies_cex :
    ga_population_read
        (ga_population_write_body exampleWPop [118, 49] ++ [88, 88, 88, 0]) =
      ReadResult.fatal "Corrupt population file?" ∧
    ga_population_read (List.replicate 40 7) =
      ReadResult.fatal "Incompatible format for population file." := by
  constructor
  · decide
  · decide

/-- C5 (amended: snapshot corruption is not reported as an error return
and the partial population is not destroyed; instead the reader calls
`die()`, a fatal process abort): any stream matching neither magic dies
with "Incompatible format for population file."; a stream whose stored
chromosome-constructor id does not resolve to a built-in operator (id 0
or -1) dies with "Chromosome constructor not defined." on the first
entity record, before the trailer is examined; and a stream that parses
up to the trailer (constructor and from-bytes ids resolving) but whose 4
trailer bytes differ from `"END\0"` dies with "Corrupt population
file?". -/
theorem ga_population_read_corruption_is_fatal (w q : WPop) (version t u s : List Nat)
    (hw : WPopWF w) (ht4 : t.length = 4) (htbad : t ≠ endTrailer)
    (hcc : 0 < ga_funclookup_ptr_to_id w.chromosome_constructor)
    (hcfb : 0 < ga_funclookup_ptr_to_id w.chromosome_from_bytes)
    (hs : 27 ≤ s.length) (hs2 : s.take 27 ≠ magic002) (hs1 : s.take 27 ≠ magic001)
    (hq : WPopWF q) (hqcc : ga_funclookup_ptr_to_id q.chromosome_constructor ≤ 0)
    (hqne : q.entities ≠ []) :
    ga_population_read (ga_population_write_body w version ++ t) =
      ReadResult.fatal "Corrupt population file?" ∧
    ga_population_read s = ReadResult.fatal "Incompatible format for population file." ∧
    ga_population_read (ga_population_write_body q version ++ u) =
      ReadResult.fatal "Chromosome constructor not defined." := by
  refine ⟨?_, ?_, ?_⟩
  · rw [read_after_body w version t hw hcc hcfb ht4, if_neg htbad]
  · rw [ga_population_read, magic002_length, pread_of_le _ _ _ hs, if_pos hs2,
      ga_population_read_001, magic001_length, pread_of_le _ _ _ hs, if_pos hs1]
  · exact read_after_body_noconstructor q version u hq hqcc hqne

theorem ga_population_read_corruption_is_fatal_witness :
    (WPopWF exampleWPop ∧ ([88, 88, 88, 1] : List Nat).length = 4 ∧
      ([88, 88, 88, 1] : List Nat) ≠ endTrailer ∧
      0 < ga_funclookup_ptr_to_id exampleWPop.chromosome_constructor ∧
      0 < ga_funclookup_ptr_to_id exampleWPop.chromosome_from_bytes ∧
      27 ≤ (List.replicate 40 7 : List Nat).length ∧
      (List.replicate 40 7 : List Nat).take 27 ≠ magic002 ∧
      (List.replicate 40 7 : List Nat).take 27 ≠ magic001 ∧
      WPopWF exampleWPopExt ∧
      ga_funclookup_ptr_to_id exampleWPopExt.chromosome_constructor ≤ 0 ∧
      exampleWPopExt.entities ≠ []) ∧
    (ga_population_read
        (ga_population_write_body exampleWPop [118, 49] ++ [88, 88, 88, 1]) =
      ReadResult.fatal "Corrupt population file?" ∧
    ga_population_read (List.replicate 40 7) =
      ReadResult.fatal "Incompatible format for population file." ∧
    ga_population_read
        (ga_population_write_body exampleWPopExt [118, 49] ++ [0]) =
      ReadResult.fatal "Chromosome constructor not defined.") :=
  ⟨⟨by decide, by decide, by decide, by decide, by decide, by decide, by decide,
      by decide, by decide, by decide, by decide⟩,
    ga_population_read_corruption_is_fatal exampleWPop exampleWPopExt [118, 49]
      [88, 88, 88, 1] [0] (List.replicate 40 7) (by decide) (by decide) (by decide)
      (by decide) (by decide) (by decide) (by decide) (by decide) (by decide)
      (by decide) (by decide)⟩

theorem table_get_data_table_add {α : Type} (t : Table α) (x : α) :
    table_get_data (table_add t x).1 (table_add t x).2 = some x := by
  unfold table_add
  cases hf : t.slots.findIdx? (fun s => s.isNone) with
  | none =>
    simp only [table_get_data]
    rw [List.getD_append_right _ _ _ _ (Nat.le_refl _)]
    simp
  | some i =>
    obtain ⟨hlt, -, -⟩ := List.findIdx?_eq_some_iff_getElem.mp hf
    simp only [table_get_data]
    rw [List.getD_eq_getElem _ _ (by simpa using hlt)]
    simp [List.getElem_set]

/-- C2: ga_population_new returns a population with size 0, max_size
4*stable_size, crossover/mutation/migration ratios all 1.0, scheme
Darwin, elitism unknown, generation 0, island -1, all entity slots empty,
every callback slot NULL, and the new population has been inserted into
the process-wide registry under the returned id. -/
theorem ga_population_new_spec (s n l : Nat) (reg : Table population) :
    (ga_population_new s n l reg).1.size = 0 ∧
    (ga_population_new s n l reg).1.stable_size = s ∧
    (ga_population_new s n l reg).1.max_size = 4 * s ∧
    (ga_population_new s n l reg).1.num_chromosomes = n ∧
    (ga_population_new s n l reg).1.len_chromosomes = l ∧
    (ga_population_new s n l reg).1.crossover_ratio = 1 ∧
    (ga_population_new s n l reg).1.mutation_ratio = 1 ∧
    (ga_population_new s n l reg).1.migration_ratio = 1 ∧
    (ga_population_new s n l reg).1.scheme = GAscheme.darwin ∧
    (ga_population_new s n l reg).1.elitism = GAelitism.unknown ∧
    (ga_population_new s n l reg).1.generation = 0 ∧
    (ga_population_new s n l reg).1.island = -1 ∧
    (ga_population_new s n l reg).1.entity_array =
      List.replicate (ga_population_new s n l reg).1.max_size none ∧
    (ga_population_new s n l reg).1.entity_iarray =
      List.replicate (ga_population_new s n l reg).1.max_size none ∧
    (ga_population_new s n l reg).1.generation_hook = none ∧
    (ga_population_new s n l reg).1.iteration_hook = none ∧
    (ga_population_new s n l reg).1.data_destructor = none ∧
    (ga_population_new s n l reg).1.data_ref_incrementor = none ∧
    (ga_population_new s n l reg).1.chromosome_constructor = none ∧
    (ga_population_new s n l reg).1.chromosome_destructor = none ∧
    (ga_population_new s n l reg).1.chromosome_replicate = none ∧
    (ga_population_new s n l reg).1.chromosome_to_bytes = none ∧
    (ga_population_new s n l reg).1.chromosome_from_bytes = none ∧
    (ga_population_new s n l reg).1.chromosome_to_string = none ∧
    (ga_population_new s n l reg).1.evaluate = none ∧
    (ga_population_new s n l reg).1.seed = none ∧
    (ga_population_new s n l reg).1.adapt = none ∧
    (ga_population_new s n l reg).1.select_one = none ∧
    (ga_population_new s n l reg).1.select_two = none ∧
    (ga_population_new s n l reg).1.mutate = none ∧
    (ga_population_new s n l reg).1.crossover = none ∧
    (ga_population_new s n l reg).1.replace = none ∧
    table_get_data (ga_population_new s n l reg).2.1 (ga_population_new s n l reg).2.2 =
      some (ga_population_new s n l reg).1 := by
  simp [ga_population_new, table_get_data_table_add, Nat.mul_comm]

/-- C9: registry round-trip — looking up the id assigned at registration
returns the registered population itself, and two distinct populations
simultaneously alive in the registry have distinct ids.  (The registry
table is modelled from the spec; its implementation is not in src.) -/
theorem registry_roundtrip {α : Type} (t u : Table α) (x : α) (i j : Nat) (p q : α)
    (hp : table_get_data u i = some p) (hq : table_get_data u j = some q)
    (hpq : p ≠ q) :
    table_get_data (table_add t x).1 (table_add t x).2 = some x ∧ i ≠ j := by
  refine ⟨table_get_data_table_add t x, ?_⟩
  intro hij
  apply hpq
  rw [hij] at hp
  rw [hp] at hq
  exact Option.some.inj hq

theorem registry_roundtrip_witness :
    (table_get_data (⟨[some 5, none, some 9]⟩ : Table Nat) 0 = some 5 ∧
      table_get_data (⟨[some 5, none, some 9]⟩ : Table Nat) 2 = some 9 ∧
      (5 : Nat) ≠ 9) ∧
    (table_get_data (table_add (⟨[some 5, none, some 9]⟩ : Table Nat) 3).1
        (table_add (⟨[some 5, none, some 9]⟩ : Table Nat) 3).2 = some 3 ∧
      (0 : Nat) ≠ 2) :=
  ⟨⟨by decide, by decide, by decide⟩,
    registry_roundtrip ⟨[some 5, none, some 9]⟩ ⟨[some 5, none, some 9]⟩ 3 0 2 5 9
      (by decide) (by decide) (by decide)⟩

/-- C10: the id guard of ga_get_entity_from_id returns NULL without
touching the entity array exactly when `id > max_size`; a call with
`id = max_size` passes the guard and indexes one slot past the end of the
id array (an out-of-bounds access, `none` in the model), and the access is
in bounds precisely under `id < max_size`. -/
theorem ga_get_entity_from_id_bounds (p : population)
    (hlen : p.entity_array.length = p.max_size) :
    (∀ id, p.max_size < id → ga_get_entity_from_id p id = some none) ∧
    ga_get_entity_from_id p p.max_size = none ∧
    (∀ id, id < p.max_size → (ga_get_entity_from_id p id).isSome = true) := by
  refine ⟨?_, ?_, ?_⟩
  · intro id hid
    rw [ga_get_entity_from_id, if_pos hid]
  · rw [ga_get_entity_from_id, if_neg (by omega)]
    rw [List.get?_eq_none]
    omega
  · intro id hid
    rw [ga_get_entity_from_id, if_neg (by omega)]
    rw [List.get?_eq_get (by omega)]
    rfl

theorem ga_get_entity_from_id_bounds_witness :
    examplePop.entity_array.length = examplePop.max_size ∧
    ((∀ id, examplePop.max_size < id → ga_get_entity_from_id examplePop id = some none) ∧
      ga_get_entity_from_id examplePop examplePop.max_size = none ∧
      (∀ id, id < examplePop.max_size →
        (ga_get_entity_from_id examplePop id).isSome = true)) :=
  ⟨by decide, ga_get_entity_from_id_bounds examplePop (by decide)⟩

/-- C6 counterexample: a seed callback that reports failure on every
entity does not make ga_population_seed return FALSE — the operation
still returns TRUE (the callback's boolean result is discarded). -/
theorem ga_population_seed_ignores_failure_cex :
    (ga_population_seed examplePop (fun _ => false)).map Prod.snd = some true := by
  decide

/-- C6 (amended: ga_population_seed calls the seed callback once per new
entity but ignores its boolean result; whenever the operation returns it
returns TRUE, so an operator-reported seeding failure is not propagated). -/
theorem ga_population_seed_always_true (p : population) (f : Nat → Bool) :
    (ga_population_seed p f).map Prod.snd = some true ∨
    ga_population_seed p f = none := by
  rw [ga_population_seed]
  cases seedLoop f p.stable_size p with
  | none => exact Or.inr rfl
  | some p1 => exact Or.inl rfl

theorem mem_intRange (lo hi v : Int) : v ∈ intRange lo hi ↔ lo ≤ v ∧ v < hi := by
  unfold intRange
  rw [List.mem_map]
  constructor
  · rintro ⟨k, hk, rfl⟩
    rw [List.mem_range] at hk
    omega
  · rintro ⟨h1, h2⟩
    refine ⟨(v - lo).toNat, ?_, ?_⟩
    · rw [List.mem_range]
      omega
    · omega

theorem setAllele_setAllele (g : List (List Int)) (cid pt : Nat) (w v : Int) :
    setAllele (setAllele g cid pt w) cid pt v = setAllele g cid pt v := by
  unfold setAllele
  by_cases hc : cid < g.length
  · have hget : ((g.set cid ((g.getD cid []).set pt w)).getD cid []) =
        (g.getD cid []).set pt w := by
      simp only [List.getD_eq_getElem?_getD, List.getElem?_set_self hc, Option.getD_some]
    rw [hget, List.set_set, List.set_set]
  · have hlen : g.length ≤ cid := by omega
    rw [List.set_eq_of_length_le hlen, List.set_eq_of_length_le hlen]

theorem setAllele_other_locus (g : List (List Int)) (cid pt : Nat) (v : Int)
    (c q : Nat) (h : ¬(c = cid ∧ q = pt)) :
    ((setAllele g cid pt v).getD c []).getD q 0 = (g.getD c []).getD q 0 := by
  unfold setAllele
  by_cases hc : c = cid
  · subst hc
    have hq : q ≠ pt := fun hq => h ⟨rfl, hq⟩
    by_cases hlt : c < g.length
    · have hget : ((g.set c ((g.getD c []).set pt v)).getD c []) =
          (g.getD c []).set pt v := by
        simp only [List.getD_eq_getElem?_getD, List.getElem?_set_self hlt, Option.getD_some]
      rw [hget]
      simp only [List.getD_eq_getElem?_getD, List.getElem?_set_ne (Ne.symm hq)]
    · rw [List.set_eq_of_length_le (by omega)]
  · simp only [List.getD_eq_getElem?_getD, List.getElem?_set_ne (Ne.symm hc)]

theorem allele_foldl_spec (ev : List (List Int) → Int) (cid pt : Nat)
    (g : List (List Int)) (vals : List Int) :
    ∀ st : ASearchState,
      (st.current = g ∨ ∃ w, st.current = setAllele g cid pt w) →
      (st.best = g ∨ ∃ w, st.best = setAllele g cid pt w) →
      ((vals.foldl (allele_step ev cid pt) st).current = g ∨
        ∃ w, (vals.foldl (allele_step ev cid pt) st).current = setAllele g cid pt w) ∧
      ((vals.foldl (allele_step ev cid pt) st).best = g ∨
        ∃ w, (vals.foldl (allele_step ev cid pt) st).best = setAllele g cid pt w) ∧
      st.best_fitness ≤ (vals.foldl (allele_step ev cid pt) st).best_fitness ∧
      (∀ v ∈ vals, ((ev (setAllele g cid pt v) : Int) : WithBot Int) ≤
        (vals.foldl (allele_step ev cid pt) st).best_fitness) := by
  induction vals with
  | nil =>
    intro st hcur hbest
    exact ⟨hcur, hbest, le_refl _, by simp⟩
  | cons v vals ih =>
    intro st hcur hbest
    have hsetcur : setAllele st.current cid pt v = setAllele g cid pt v := by
      rcases hcur with h | ⟨w, h⟩
      · rw [h]
      · rw [h, setAllele_setAllele]
    have hstep : allele_step ev cid pt st v =
        if st.best_fitness < ((ev (setAllele g cid pt v) : Int) : WithBot Int) then
          ⟨setAllele g cid pt v, ((ev (setAllele g cid pt v) : Int) : WithBot Int),
            setAllele g cid pt v⟩
        else ⟨st.best, st.best_fitness, st.best⟩ := by
      simp only [allele_step, hsetcur]
    rw [List.foldl_cons, hstep]
    by_cases hlt : st.best_fitness < ((ev (setAllele g cid pt v) : Int) : WithBot Int)
    · rw [if_pos hlt]
      obtain ⟨hc, hb, hmono, hall⟩ :=
        ih ⟨setAllele g cid pt v, ((ev (setAllele g cid pt v) : Int) : WithBot Int),
          setAllele g cid pt v⟩ (Or.inr ⟨v, rfl⟩) (Or.inr ⟨v, rfl⟩)
      refine ⟨hc, hb, le_trans (le_of_lt hlt) hmono, ?_⟩
      intro u hu
      rcases List.mem_cons.mp hu with rfl | hu
      · exact hmono
      · exact hall u hu
    · rw [if_neg hlt]
      obtain ⟨hc, hb, hmono, hall⟩ :=
        ih ⟨st.best, st.best_fitness, st.best⟩ hbest hbest
      refine ⟨hc, hb, hmono, ?_⟩
      intro u hu
      rcases List.mem_cons.mp hu with rfl | hu
      · exact le_trans (not_lt.mp hlt) hmono
      · exact hall u hu

/-- C8: ga_allele_search systematically scans the inclusive-exclusive
integer range `[min_val, max_val)` at the single locus `point` of
chromosome `chromosomeid` of the working entity: the returned entity's
fitness is greater than or equal to the fitness the evaluate callback
assigns to every candidate in that range (every entity reachable from the
supplied start by varying only that locus), and the returned genome
agrees with the start genome at every other locus. -/
theorem ga_allele_search_optimal (ev : List (List Int) → Int) (cid pt : Nat)
    (lo hi : Int) (start : List (List Int)) :
    (∀ v, lo ≤ v → v < hi →
      ((ev (setAllele start cid pt v) : Int) : WithBot Int) ≤
        (ga_allele_search ev cid pt lo hi start).2) ∧
    (∀ c q, ¬(c = cid ∧ q = pt) →
      ((ga_allele_search ev cid pt lo hi start).1.getD c []).getD q 0 =
        (start.getD c []).getD q 0) := by
  obtain ⟨hc, hb, hmono, hall⟩ := allele_foldl_spec ev cid pt start (intRange lo hi)
    ⟨start, GA_MIN_FITNESS, start⟩ (Or.inl rfl) (Or.inl rfl)
  have hfst : (ga_allele_search ev cid pt lo hi start).1 =
      ((intRange lo hi).foldl (allele_step ev cid pt)
        ⟨start, GA_MIN_FITNESS, start⟩).best := rfl
  have hsnd : (ga_allele_search ev cid pt lo hi start).2 =
      ((intRange lo hi).foldl (allele_step ev cid pt)
        ⟨start, GA_MIN_FITNESS, start⟩).best_fitness := rfl
  constructor
  · intro v h1 h2
    rw [hsnd]
    exact hall v ((mem_intRange lo hi v).mpr ⟨h1, h2⟩)
  · intro c q hcq
    rw [hfst]
    rcases hb with h | ⟨w, h⟩
    · rw [h]
    · rw [h, setAllele_other_locus start cid pt w c q hcq]

theorem ga_allele_search_optimal_witness :
    ((0 : Int) ≤ 2 ∧ (2 : Int) < 4 ∧ ¬((1 : Nat) = 0 ∧ (0 : Nat) = 1)) ∧
    (((((fun g : List (List Int) => (g.getD 0 []).getD 1 0) (setAllele [[5, 0]] 0 1 2) : Int) :
        WithBot Int) ≤
      (ga_allele_search (fun g : List (List Int) => (g.getD 0 []).getD 1 0) 0 1 0 4
        [[5, 0]]).2) ∧
    ((ga_allele_search (fun g : List (List Int) => (g.getD 0 []).getD 1 0) 0 1 0 4
        [[5, 0]]).1.getD 1 []).getD 0 0 =
      (([[5, 0]] : List (List Int)).getD 1 []).getD 0 0) :=
  ⟨⟨by decide, by decide, by decide⟩,
    (ga_allele_search_optimal (fun g : List (List Int) => (g.getD 0 []).getD 1 0)
      0 1 0 4 [[5, 0]]).1 2 (by decide) (by decide),
    (ga_allele_search_optimal (fun g : List (List Int) => (g.getD 0 []).getD 1 0)
      0 1 0 4 [[5, 0]]).2 1 0 (by decide)⟩

/-! ### The free-slot scan of ga_get_free_entity -/

theorem scanFree_sound (arr : List (Option Nat)) :
    ∀ fuel fi r, fi < arr.length → scanFree arr fi fuel = some r →
      r < arr.length ∧ arr.getD r none = none := by
  intro fuel
  induction fuel with
  | zero =>
    intro fi r hfi h
    simp [scanFree] at h
  | succ f ih =>
    intro fi r hfi h
    rw [scanFree] at h
    by_cases hfree : arr.getD fi none = none
    · rw [if_pos hfree] at h
      cases h
      exact ⟨hfi, hfree⟩
    · rw [if_neg hfree] at h
      refine ih _ r ?_ h
      split
      · omega
      · omega

theorem scanFree_finds (arr : List (Option Nat)) :
    ∀ d j fuel, arr.getD j none = none → j + d < arr.length → d < fuel →
      (scanFree arr (j + d) fuel).isSome = true := by
  intro d
  induction d with
  | zero =>
    intro j fuel hj hlen hfuel
    cases fuel with
    | zero => omega
    | succ f =>
      rw [scanFree]
      have hj0 : arr.getD (j + 0) none = none := by simpa using hj
      rw [if_pos hj0]
      rfl
  | succ d ih =>
    intro j fuel hj hlen hfuel
    cases fuel with
    | zero => omega
    | succ f =>
      rw [scanFree]
      by_cases hocc : arr.getD (j + (d + 1)) none = none
      · rw [if_pos hocc]
        rfl
      · rw [if_neg hocc]
        have hstep : (if j + (d + 1) = 0 then arr.length - 1 else j + (d + 1) - 1) =
            j + d := by
          split
          · omega
          · omega
        rw [hstep]
        exact ih j f hj (by omega) (by omega)

theorem scanFree_wrap (arr : List (Option Nat)) :
    ∀ fi fuel, fi < arr.length → (∀ i, i ≤ fi → ¬ arr.getD i none = none) →
      fi < fuel → scanFree arr fi fuel = scanFree arr (arr.length - 1) (fuel - (fi + 1)) := by
  intro fi
  induction fi with
  | zero =>
    intro fuel hlen hocc hfuel
    cases fuel with
    | zero => omega
    | succ f =>
      rw [scanFree, if_neg (hocc 0 (Nat.le_refl 0)), if_pos rfl]
      rfl
  | succ fi ih =>
    intro fuel hlen hocc hfuel
    cases fuel with
    | zero => omega
    | succ f =>
      rw [scanFree, if_neg (hocc _ (Nat.le_refl _)), if_neg (by omega)]
      have hred : fi + 1 - 1 = fi := rfl
      rw [hred, ih f (by omega) (fun i hi => hocc i (by omega)) (by omega)]
      congr 1
      omega

theorem scanFree_success (arr : List (Option Nat)) (fi : Nat) (hfi : fi < arr.length)
    (hfree : ∃ j, j < arr.length ∧ arr.getD j none = none) :
    (scanFree arr fi arr.length).isSome = true := by
  obtain ⟨j, hj, hjfree⟩ := hfree
  by_cases hex : ∃ j0, j0 ≤ fi ∧ arr.getD j0 none = none
  · obtain ⟨j0, hj0, hfree0⟩ := hex
    have hfi0 : fi = j0 + (fi - j0) := by omega
    rw [hfi0]
    exact scanFree_finds arr (fi - j0) j0 arr.length hfree0 (by omega) (by omega)
  · push_neg at hex
    have hgt : fi < j := by
      by_contra hc
      exact (hex j (by omega)) hjfree
    rw [scanFree_wrap arr fi arr.length hfi (fun i hi => hex i hi) (by omega)]
    have hlast : arr.length - 1 = j + (arr.length - 1 - j) := by omega
    rw [hlast]
    exact scanFree_finds arr (arr.length - 1 - j) j _ hjfree (by omega) (by omega)

theorem stepBack_succ (len fi k : Nat) (hfi : fi < len) (hk : k + 1 < len) :
    stepBack len fi (k + 1) = stepBack len (if fi = 0 then len - 1 else fi - 1) k := by
  unfold stepBack
  split_ifs <;> omega

theorem scanFree_first_free (arr : List (Option Nat)) :
    ∀ fuel fi r, fi < arr.length → fuel ≤ arr.length → scanFree arr fi fuel = some r →
      ∃ d, d < fuel ∧ r = stepBack arr.length fi d ∧
        ∀ k, k < d → ¬ arr.getD (stepBack arr.length fi k) none = none := by
  intro fuel
  induction fuel with
  | zero =>
    intro fi r hfi hfuel h
    simp [scanFree] at h
  | succ f ih =>
    intro fi r hfi hfuel h
    rw [scanFree] at h
    by_cases hfree : arr.getD fi none = none
    · rw [if_pos hfree] at h
      cases h
      refine ⟨0, by omega, by simp [stepBack], ?_⟩
      intro k hk
      omega
    · rw [if_neg hfree] at h
      have hfi'lt : (if fi = 0 then arr.length - 1 else fi - 1) < arr.length := by
        split <;> omega
      obtain ⟨d, hd, hr, hk⟩ := ih _ r hfi'lt (by omega) h
      refine ⟨d + 1, by omega, ?_, ?_⟩
      · rw [hr, stepBack_succ arr.length fi d hfi (by omega)]
      · intro k hk1
        cases k with
        | zero =>
          simpa [stepBack] using hfree
        | succ k =>
          rw [stepBack_succ arr.length fi k hfi (by omega)]
          exact hk k (by omega)

/-! ### Pool facts -/

theorem filterMap_replicate_none (k : Nat) :
    (List.replicate k (none : Option Nat)).filterMap id = [] := by
  induction k with
  | zero => rfl
  | succ k ih => simp [List.replicate_succ, ih]

theorem liveh_append_replicate_none (l : List (Option Nat)) (k : Nat) :
    liveh (l ++ List.replicate k none) = liveh l := by
  simp [liveh, List.filterMap_append, filterMap_replicate_none k]

theorem exists_none_slot (arr : List (Option Nat)) (h : (liveh arr).length < arr.length) :
    ∃ j, j < arr.length ∧ arr.getD j none = none := by
  induction arr with
  | nil => simp at h
  | cons a arr ih =>
    cases a with
    | none => exact ⟨0, by simp, rfl⟩
    | some x =>
      have h' : (liveh arr).length < arr.length := by
        simpa [liveh] using h
      obtain ⟨j, hj, hfree⟩ := ih h'
      exact ⟨j + 1, by simpa using hj, by simpa using hfree⟩

theorem liveh_length_take (l : List (Option Nat)) (n : Nat) (hn : n ≤ l.length)
    (h : ∀ i, i < n → (l.getD i none).isSome = true) :
    (liveh (l.take n)).length = n := by
  induction l generalizing n with
  | nil =>
    simp at hn
    subst hn
    rfl
  | cons a l ih =>
    cases n with
    | zero => rfl
    | succ n =>
      have h0 := h 0 (by omega)
      cases a with
      | none => simp at h0
      | some x =>
        have hrec := ih n (by simpa using hn) (fun i hi => by simpa using h (i + 1) (by omega))
        simp [liveh] at hrec ⊢
        omega

theorem pop_grow_id_of_ne (p : population) (h : ¬ p.max_size = p.size + 1) :
    pop_grow p = p := by
  simp [pop_grow, h]

theorem pop_grow_spec (p : population) (hInv : PoolInv p) :
    (pop_grow p).entity_array =
      p.entity_array ++ List.replicate ((pop_grow p).max_size - p.max_size) none ∧
    (pop_grow p).entity_iarray =
      p.entity_iarray ++ List.replicate ((pop_grow p).max_size - p.max_size) none ∧
    p.max_size ≤ (pop_grow p).max_size ∧
    (pop_grow p).size = p.size ∧
    (pop_grow p).next_ptr = p.next_ptr ∧
    (pop_grow p).chromo_constructed = p.chromo_constructed ∧
    (pop_grow p).chromosome_constructor = p.chromosome_constructor ∧
    (pop_grow p).free_index < (pop_grow p).max_size ∧
    p.size + 1 < (pop_grow p).max_size ∧
    2 ≤ (pop_grow p).max_size := by
  obtain ⟨hea, hia, hmax2, hsz, hfi, -, -, -, -, -⟩ := hInv
  by_cases hg : p.max_size = p.size + 1
  · refine ⟨?_, ?_, ?_, ?_, ?_, ?_, ?_, ?_, ?_, ?_⟩ <;>
      simp only [pop_grow, if_pos hg] <;> omega
  · rw [pop_grow_id_of_ne p hg]
    refine ⟨by simp, by simp, Nat.le_refl _, rfl, rfl, rfl, rfl, hfi, by omega, hmax2⟩

/-- C7 counterexample: the pool does not grow "exactly when full".  After
three allocations from `ga_population_new(1,...)` the pool has size 3,
max_size 4 and 3 live id slots — one slot is still free, the pool is not
full — yet the next ga_get_free_entity call grows the capacity to
(4*3)/2 = 6. -/
theorem ga_get_free_entity_grows_before_full_cex :
    ((((ga_get_free_entity examplePop).bind (fun x => ga_get_free_entity x.1)).bind
        (fun x => ga_get_free_entity x.1)).map
      (fun x => (x.1.size, x.1.max_size, (liveh x.1.entity_array).length)) =
      some (3, 4, 3)) ∧
    (((((ga_get_free_entity examplePop).bind (fun x => ga_get_free_entity x.1)).bind
        (fun x => ga_get_free_entity x.1)).bind
        (fun x => ga_get_free_entity x.1)).map (fun x => x.1.max_size) =
      some 6) := by
  constructor
  · decide
  · decide

/-- C7 (amended: the pool grows not when it is full but exactly when
`max_size == size+1`, i.e. when the allocation would otherwise fill the
last free slot; the pool is never allowed to become completely full):
ga_get_free_entity grows the capacity to `(max_size*3)/2` with all new
slots empty exactly under that condition, scans the id index backwards
from the `free_index` cursor with wraparound at zero until the first
empty slot, invokes the chromosome constructor on the fresh entity,
stores it in rank slot `size` (rank equal to the old size), increments
`size` by one, and returns it. -/
theorem ga_get_free_entity_spec (p : population) (hInv : PoolInv p)
    (hcon : p.chromosome_constructor.isSome = true) :
    ∃ p' e, ga_get_free_entity p = some (p', e) ∧
      ((pop_grow p).max_size =
        if p.max_size = p.size + 1 then p.max_size * 3 / 2 else p.max_size) ∧
      (pop_grow p).entity_array =
        p.entity_array ++ List.replicate ((pop_grow p).max_size - p.max_size) none ∧
      e = p.next_ptr ∧
      e ∈ p'.chromo_constructed ∧
      p'.size = p.size + 1 ∧
      p'.entity_iarray = (pop_grow p).entity_iarray.set p.size (some e) ∧
      p'.entity_array = (pop_grow p).entity_array.set p'.free_index (some e) ∧
      (pop_grow p).entity_array.getD p'.free_index none = none ∧
      (∃ d, p'.free_index = stepBack (pop_grow p).max_size (pop_grow p).free_index d ∧
        ∀ k, k < d →
          ¬ (pop_grow p).entity_array.getD
            (stepBack (pop_grow p).max_size (pop_grow p).free_index k) none = none) := by
  obtain ⟨hgea, hgia, hgmax, hgsize, hgnext, hgcc, hgcon, hgfi, hgslt, hgmax2⟩ :=
    pop_grow_spec p hInv
  obtain ⟨hea, hia, hmax2, hsz, hfi, hrl, hrd, hnd, hperm, hlt⟩ := hInv
  have hglen : (pop_grow p).entity_array.length = (pop_grow p).max_size := by
    rw [hgea]
    simp [hea]
    omega
  have hlive_eq : liveh (pop_grow p).entity_array = liveh p.entity_array := by
    rw [hgea]
    exact liveh_append_replicate_none _ _
  have hcount : (liveh p.entity_array).length = p.size := by
    rw [hperm.length_eq]
    exact liveh_length_take p.entity_iarray p.size (by omega)
      (fun i hi => hrl i (by omega) hi)
  have hfree_ex : ∃ j, j < (pop_grow p).entity_array.length ∧
      (pop_grow p).entity_array.getD j none = none := by
    apply exists_none_slot
    rw [hlive_eq, hcount, hglen]
    omega
  have hfilt : (pop_grow p).free_index < (pop_grow p).entity_array.length := by
    rw [hglen]
    exact hgfi
  have hscan : (scanFree (pop_grow p).entity_array (pop_grow p).free_index
      (pop_grow p).max_size).isSome = true := by
    have hs := scanFree_success (pop_grow p).entity_array (pop_grow p).free_index
      hfilt hfree_ex
    rwa [hglen] at hs
  obtain ⟨fi, hfi_eq⟩ := Option.isSome_iff_exists.mp hscan
  have hsound := scanFree_sound (pop_grow p).entity_array _ _ _ hfilt hfi_eq
  have hfirst := scanFree_first_free (pop_grow p).entity_array _ _ _ hfilt
    (Nat.le_of_eq hglen.symm) hfi_eq
  obtain ⟨c, hc⟩ := Option.isSome_iff_exists.mp hcon
  have hconsome : (pop_grow p).chromosome_constructor = some c := by
    rw [hgcon, hc]
  refine ⟨{ pop_grow p with
      chromo_constructed := (pop_grow p).next_ptr :: (pop_grow p).chromo_constructed
      entity_array := ((pop_grow p).entity_array).set fi (some (pop_grow p).next_ptr)
      entity_iarray :=
        ((pop_grow p).entity_iarray).set (pop_grow p).size (some (pop_grow p).next_ptr)
      size := (pop_grow p).size + 1
      free_index := fi
      next_ptr := (pop_grow p).next_ptr + 1 }, (pop_grow p).next_ptr,
    ?_, ?_, hgea, hgnext, ?_, ?_, ?_, rfl, hsound.2, ?_⟩
  · simp only [ga_get_free_entity, hfi_eq, ga_entity_setup, hconsome]
  · simp only [pop_grow]
    split
    · rfl
    · rfl
  · exact List.mem_cons_self _ _
  · rw [hgsize]
  · rw [hgsize]
  · obtain ⟨d, hd1, hd2, hd3⟩ := hfirst
    rw [hglen] at hd2 hd3
    exact ⟨d, hd2, hd3⟩

theorem ga_get_free_entity_spec_witness :
    (PoolInv examplePop ∧ examplePop.chromosome_constructor.isSome = true) ∧
    (∃ p' e, ga_get_free_entity examplePop = some (p', e) ∧
      ((pop_grow examplePop).max_size =
        if examplePop.max_size = examplePop.size + 1 then examplePop.max_size * 3 / 2
        else examplePop.max_size) ∧
      (pop_grow examplePop).entity_array =
        examplePop.entity_array ++
          List.replicate ((pop_grow examplePop).max_size - examplePop.max_size) none ∧
      e = examplePop.next_ptr ∧
      e ∈ p'.chromo_constructed ∧
      p'.size = examplePop.size + 1 ∧
      p'.entity_iarray = (pop_grow examplePop).entity_iarray.set examplePop.size (some e) ∧
      p'.entity_array = (pop_grow examplePop).entity_array.set p'.free_index (some e) ∧
      (pop_grow examplePop).entity_array.getD p'.free_index none = none ∧
      (∃ d, p'.free_index =
          stepBack (pop_grow examplePop).max_size (pop_grow examplePop).free_index d ∧
        ∀ k, k < d →
          ¬ (pop_grow examplePop).entity_array.getD
            (stepBack (pop_grow examplePop).max_size
              (pop_grow examplePop).free_index k) none = none)) :=
  ⟨⟨by decide, by decide⟩, ga_get_free_entity_spec examplePop (by decide) (by decide)⟩

theorem filterMap_set_none_perm (arr : List (Option Nat)) (j a : Nat)
    (hj : j < arr.length) (ha : arr.getD j none = some a) :
    List.Perm (arr.filterMap id) (a :: (arr.set j none).filterMap id) := by
  have hget : arr[j] = some a := by
    rw [List.getD_eq_getElem arr none hj] at ha
    exact ha
  have hdecomp : arr = arr.take j ++ some a :: arr.drop (j + 1) := by
    conv_lhs => rw [← List.take_append_drop j arr, List.drop_eq_getElem_cons hj, hget]
  rw [List.set_eq_take_cons_drop _ hj]
  conv_lhs => rw [hdecomp]
  simp only [List.filterMap_append, List.filterMap_cons, id]
  exact List.perm_middle

theorem filterMap_set_some_perm (arr : List (Option Nat)) (j v : Nat)
    (hj : j < arr.length) (ha : arr.getD j none = none) :
    List.Perm ((arr.set j (some v)).filterMap id) (v :: arr.filterMap id) := by
  have hget : arr[j] = none := by
    rw [List.getD_eq_getElem arr none hj] at ha
    exact ha
  have hdecomp : arr = arr.take j ++ none :: arr.drop (j + 1) := by
    conv_lhs => rw [← List.take_append_drop j arr, List.drop_eq_getElem_cons hj, hget]
  rw [List.set_eq_take_cons_drop _ hj]
  conv_rhs => rw [hdecomp]
  simp only [List.filterMap_append, List.filterMap_cons, id]
  exact List.perm_middle

theorem take_set_snoc (l : List (Option Nat)) (n : Nat) (x : Option Nat)
    (hn : n < l.length) :
    (l.set n x).take (n + 1) = l.take n ++ [x] := by
  rw [List.set_eq_take_cons_drop _ hn, List.take_append_eq_append_take]
  rw [List.take_of_length_le (by rw [List.length_take]; omega)]
  congr 1
  have hlen : (l.take n).length = n := by
    rw [List.length_take]
    omega
  rw [hlen]
  simp

theorem shiftLeftIar_getElem? (l : List (Option Nat)) (rank sz i : Nat) :
    (shiftLeftIar l rank sz)[i]? =
      if i < l.length then
        some (if rank ≤ i ∧ i < sz then l.getD (i + 1) none else l.getD i none)
      else none := by
  rw [shiftLeftIar, List.getElem?_ofFn]
  rw [List.ofFnNthVal]
  split
  · rfl
  · rfl

theorem shiftLeftIar_length (l : List (Option Nat)) (rank sz : Nat) :
    (shiftLeftIar l rank sz).length = l.length := by
  simp [shiftLeftIar, List.length_ofFn]

theorem shiftLeftIar_getD (l : List (Option Nat)) (rank sz i : Nat) (hi : i < l.length) :
    (shiftLeftIar l rank sz).getD i none =
      if rank ≤ i ∧ i < sz then l.getD (i + 1) none else l.getD i none := by
  rw [List.getD_eq_getElem?_getD, shiftLeftIar_getElem?, if_pos hi]
  rfl

theorem shift_set_take_eq (l : List (Option Nat)) (rank sz : Nat)
    (hsz : sz + 1 ≤ l.length) (hrank : rank ≤ sz) :
    ((shiftLeftIar l rank sz).set sz none).take sz = (l.take (sz + 1)).eraseIdx rank := by
  apply List.ext_getElem?
  intro n
  by_cases hn : n < sz
  · rw [List.getElem?_take_of_lt hn, List.getElem?_set_ne (by omega)]
    rw [shiftLeftIar_getElem?, if_pos (by omega)]
    rw [List.getElem?_eraseIdx]
    by_cases hnr : n < rank
    · rw [if_pos hnr, List.getElem?_take_of_lt (by omega)]
      rw [if_neg (by omega)]
      rw [List.getD_eq_getElem?_getD]
      cases hx : l[n]? with
      | none =>
        rw [List.getElem?_eq_none_iff] at hx
        omega
      | some x => rfl
    · rw [if_neg hnr, List.getElem?_take_of_lt (by omega)]
      rw [if_pos (by omega)]
      rw [List.getD_eq_getElem?_getD]
      cases hx : l[n + 1]? with
      | none =>
        rw [List.getElem?_eq_none_iff] at hx
        omega
      | some x => rfl
  · have h1 : (((shiftLeftIar l rank sz).set sz none).take sz).length = sz := by
      rw [List.length_take, List.length_set, shiftLeftIar_length]
      omega
    have h2 : ((l.take (sz + 1)).eraseIdx rank).length = sz := by
      rw [List.length_eraseIdx, List.length_take]
      split
      · omega
      · omega
    rw [List.getElem?_eq_none (by omega), List.getElem?_eq_none (by omega)]

theorem filterMap_eraseIdx_perm (l : List (Option Nat)) (k a : Nat)
    (hk : k < l.length) (ha : l.getD k none = some a) :
    List.Perm (l.filterMap id) (a :: (l.eraseIdx k).filterMap id) := by
  have hget : l[k] = some a := by
    rw [List.getD_eq_getElem l none hk] at ha
    exact ha
  have hdecomp : l = l.take k ++ some a :: l.drop (k + 1) := by
    conv_lhs => rw [← List.take_append_drop k l, List.drop_eq_getElem_cons hk, hget]
  rw [List.eraseIdx_eq_take_drop_succ]
  conv_lhs => rw [hdecomp]
  simp only [List.filterMap_append, List.filterMap_cons, id]
  exact List.perm_middle

theorem pop_grow_inv (p : population) (hInv : PoolInv p) : PoolInv (pop_grow p) := by
  obtain ⟨hgea, hgia, hgmax, hgsize, hgnext, hgcc, hgcon, hgfi, hgslt, hgmax2⟩ :=
    pop_grow_spec p hInv
  obtain ⟨hea, hia, hmax2, hsz, hfi, hrl, hrd, hnd, hperm, hlt⟩ := hInv
  refine ⟨?_, ?_, hgmax2, ?_, hgfi, ?_, ?_, ?_, ?_, ?_⟩
  · rw [hgea]
    simp [hea]
    omega
  · rw [hgia]
    simp [hia]
    omega
  · omega
  · intro i hi hisz
    rw [hgsize] at hisz
    rw [hgia]
    rw [List.getD_eq_getElem?_getD, List.getElem?_append_left (by omega)]
    rw [← List.getD_eq_getElem?_getD]
    exact hrl i (by omega) (by omega)
  · intro i hi hisz
    rw [hgsize] at hisz
    rw [hgia]
    by_cases hilt : i < p.entity_iarray.length
    · rw [List.getD_eq_getElem?_getD, List.getElem?_append_left hilt,
        ← List.getD_eq_getElem?_getD]
      exact hrd i (by omega) (by omega)
    · rw [List.getD_eq_getElem?_getD, List.getElem?_append_right (by omega),
        ← List.getD_eq_getElem?_getD]
      by_cases hrep : i - p.entity_iarray.length < (pop_grow p).max_size - p.max_size
      · rw [List.getD_eq_getElem _ _ (by simp; omega)]
        simp
      · rw [List.getD_eq_default _ _ (by simp; omega)]
  · rw [show liveh (pop_grow p).entity_array = liveh p.entity_array from by
      rw [hgea]; exact liveh_append_replicate_none _ _]
    exact hnd
  · rw [show liveh (pop_grow p).entity_array = liveh p.entity_array from by
      rw [hgea]; exact liveh_append_replicate_none _ _]
    rw [hgia, hgsize, List.take_append_of_le_length (by omega)]
    exact hperm
  · rw [show liveh (pop_grow p).entity_array = liveh p.entity_array from by
      rw [hgea]; exact liveh_append_replicate_none _ _]
    rw [hgnext]
    exact hlt

theorem ga_get_free_entity_preserves (p : population) (hInv : PoolInv p)
    (hcon : p.chromosome_constructor.isSome = true) :
    ∃ p' e, ga_get_free_entity p = some (p', e) ∧ PoolInv p' ∧
      (liveh p'.entity_array).length = p'.size := by
  have hInvG := pop_grow_inv p hInv
  obtain ⟨-, -, -, hgsize, hgnext, -, hgcon, -, hgslt, -⟩ := pop_grow_spec p hInv
  set pg := pop_grow p with hpg
  obtain ⟨hea, hia, hmax2, hsz, hfi, hrl, hrd, hnd, hperm, hlt⟩ := hInvG
  have hcount : (liveh pg.entity_array).length = pg.size := by
    rw [hperm.length_eq]
    exact liveh_length_take pg.entity_iarray pg.size (by omega)
      (fun i hi => hrl i (by omega) hi)
  have hfree_ex : ∃ j, j < pg.entity_array.length ∧ pg.entity_array.getD j none = none := by
    apply exists_none_slot
    omega
  have hfilt : pg.free_index < pg.entity_array.length := by omega
  have hscan : (scanFree pg.entity_array pg.free_index pg.max_size).isSome = true := by
    have hs := scanFree_success pg.entity_array pg.free_index hfilt hfree_ex
    rwa [hea] at hs
  obtain ⟨fi, hfi_eq⟩ := Option.isSome_iff_exists.mp hscan
  have hsound := scanFree_sound pg.entity_array _ _ _ hfilt hfi_eq
  obtain ⟨c, hc⟩ := Option.isSome_iff_exists.mp hcon
  have hconsome : pg.chromosome_constructor = some c := by rw [hgcon, hc]
  have heaperm : List.Perm ((pg.entity_array.set fi (some pg.next_ptr)).filterMap id)
      (pg.next_ptr :: pg.entity_array.filterMap id) :=
    filterMap_set_some_perm pg.entity_array fi pg.next_ptr hsound.1 hsound.2
  have hnotmem : pg.next_ptr ∉ liveh pg.entity_array := by
    intro hmem
    exact absurd (hlt _ hmem) (by omega)
  have htake : (pg.entity_iarray.set pg.size (some pg.next_ptr)).take (pg.size + 1) =
      pg.entity_iarray.take pg.size ++ [some pg.next_ptr] :=
    take_set_snoc pg.entity_iarray pg.size (some pg.next_ptr) (by omega)
  refine ⟨{ pg with
      chromo_constructed := pg.next_ptr :: pg.chromo_constructed
      entity_array := pg.entity_array.set fi (some pg.next_ptr)
      entity_iarray := pg.entity_iarray.set pg.size (some pg.next_ptr)
      size := pg.size + 1
      free_index := fi
      next_ptr := pg.next_ptr + 1 }, pg.next_ptr, ?_, ?_, ?_⟩
  · simp only [ga_get_free_entity]
    rw [← hpg, hfi_eq]
    simp only [ga_entity_setup, hconsome]
  · refine ⟨by simp [hea], by simp [hia], hmax2, ?_, ?_, ?_, ?_, ?_, ?_, ?_⟩
    · show pg.size + 1 < pg.max_size
      omega
    · show fi < pg.max_size
      omega
    · intro i hi hisz
      have hi2 : i < pg.max_size := hi
      have hisz2 : i < pg.size + 1 := hisz
      show ((pg.entity_iarray.set pg.size (some pg.next_ptr)).getD i none).isSome = true
      by_cases hieq : i = pg.size
      · subst hieq
        rw [List.getD_eq_getElem?_getD, List.getElem?_set_self (by omega)]
        rfl
      · rw [List.getD_eq_getElem?_getD, List.getElem?_set_ne (by omega),
          ← List.getD_eq_getElem?_getD]
        exact hrl i (by omega) (by omega)
    · intro i hi hisz
      have hi2 : i < pg.max_size := hi
      have hisz2 : pg.size + 1 ≤ i := hisz
      show (pg.entity_iarray.set pg.size (some pg.next_ptr)).getD i none = none
      rw [List.getD_eq_getElem?_getD, List.getElem?_set_ne (by omega),
        ← List.getD_eq_getElem?_getD]
      exact hrd i (by omega) (by omega)
    · exact (heaperm.nodup_iff).mpr (List.nodup_cons.mpr ⟨hnotmem, hnd⟩)
    · show List.Perm (liveh (pg.entity_array.set fi (some pg.next_ptr)))
        (liveh ((pg.entity_iarray.set pg.size (some pg.next_ptr)).take (pg.size + 1)))
      rw [htake]
      have hmid : List.Perm (liveh (pg.entity_iarray.take pg.size) ++ [pg.next_ptr])
          (pg.next_ptr :: liveh (pg.entity_iarray.take pg.size)) := by
        have hm := @List.perm_middle Nat pg.next_ptr
          (liveh (pg.entity_iarray.take pg.size)) []
        rw [List.append_nil] at hm
        exact hm
      have hlive : liveh (pg.entity_iarray.take pg.size ++ [some pg.next_ptr]) =
          liveh (pg.entity_iarray.take pg.size) ++ [pg.next_ptr] := by
        simp [liveh]
      rw [hlive]
      exact (heaperm.trans ((hperm.cons pg.next_ptr))).trans hmid.symm
    · intro h hmem
      show h < pg.next_ptr + 1
      have hmem2 := heaperm.mem_iff.mp hmem
      rcases List.mem_cons.mp hmem2 with rfl | hmem3
      · omega
      · have := hlt h hmem3
        omega
  · show ((pg.entity_array.set fi (some pg.next_ptr)).filterMap id).length = pg.size + 1
    rw [heaperm.length_eq]
    have hc2 : (List.filterMap id pg.entity_array).length = pg.size := hcount
    simp [hc2]

theorem ga_entity_dereference_by_rank_preserves (p : population) (hInv : PoolInv p)
    (rank : Nat) (hrank : rank < p.size) :
    ∃ p', ga_entity_dereference_by_rank p rank = some p' ∧ PoolInv p' ∧
      (liveh p'.entity_array).length = p'.size ∧
      p'.size = p.size - 1 ∧
      (∀ i, i < rank → p'.entity_iarray.getD i none = p.entity_iarray.getD i none) ∧
      (∀ i, rank ≤ i → i < p.size - 1 →
        p'.entity_iarray.getD i none = p.entity_iarray.getD (i + 1) none) ∧
      (∃ j, p.entity_array.getD j none = p.entity_iarray.getD rank none ∧
        p'.entity_array = p.entity_array.set j none) := by
  obtain ⟨hea, hia, hmax2, hsz, hfi, hrl, hrd, hnd, hperm, hlt⟩ := hInv
  have hcount : (liveh p.entity_array).length = p.size := by
    rw [hperm.length_eq]
    exact liveh_length_take p.entity_iarray p.size (by omega)
      (fun i hi => hrl i (by omega) hi)
  have hdsome : (p.entity_iarray.getD rank none).isSome = true := hrl rank (by omega) hrank
  obtain ⟨dying, hd⟩ := Option.isSome_iff_exists.mp hdsome
  have hrlen : rank < p.entity_iarray.length := by omega
  have hget : p.entity_iarray[rank] = some dying := by
    rw [List.getD_eq_getElem _ _ hrlen] at hd
    exact hd
  have hmem_take : some dying ∈ p.entity_iarray.take p.size := by
    rw [List.mem_iff_getElem?]
    exact ⟨rank, by rw [List.getElem?_take_of_lt hrank, List.getElem?_eq_getElem hrlen, hget]⟩
  have hdying_take : dying ∈ liveh (p.entity_iarray.take p.size) :=
    List.mem_filterMap.mpr ⟨some dying, hmem_take, rfl⟩
  have hdying_ea : dying ∈ liveh p.entity_array := hperm.mem_iff.mpr hdying_take
  have hsome_mem : some dying ∈ p.entity_array := by
    obtain ⟨o, ho, hoe⟩ := List.mem_filterMap.mp hdying_ea
    have : o = some dying := hoe
    rwa [this] at ho
  have hfind : p.entity_array.findIdx? (fun s => s = some dying) =
      some (p.entity_array.findIdx (fun s => s = some dying)) :=
    List.findIdx?_eq_some_of_exists ⟨some dying, hsome_mem, by simp⟩
  obtain ⟨hjlt, hjpred, -⟩ := List.findIdx?_eq_some_iff_getElem.mp hfind
  have hjget : p.entity_array[p.entity_array.findIdx (fun s => s = some dying)] =
      some dying := by
    simpa using hjpred
  have hjgetD : p.entity_array.getD
      (p.entity_array.findIdx (fun s => s = some dying)) none = some dying := by
    rw [List.getD_eq_getElem _ _ hjlt, hjget]
  have heaperm : List.Perm (p.entity_array.filterMap id)
      (dying :: ((p.entity_array.set
        (p.entity_array.findIdx (fun s => s = some dying)) none).filterMap id)) :=
    filterMap_set_none_perm p.entity_array _ dying hjlt hjgetD
  have hsz1 : (p.size - 1) + 1 = p.size := by omega
  have htake_eq : ((shiftLeftIar p.entity_iarray rank (p.size - 1)).set (p.size - 1)
        none).take (p.size - 1) =
      (p.entity_iarray.take ((p.size - 1) + 1)).eraseIdx rank :=
    shift_set_take_eq p.entity_iarray rank (p.size - 1) (by omega) (by omega)
  have htklen : rank < (p.entity_iarray.take ((p.size - 1) + 1)).length := by
    rw [List.length_take]
    omega
  have htkgetD : (p.entity_iarray.take ((p.size - 1) + 1)).getD rank none = some dying := by
    rw [List.getD_eq_getElem?_getD, List.getElem?_take_of_lt (by omega),
      List.getElem?_eq_getElem hrlen, hget]
    rfl
  have hiaperm : List.Perm ((p.entity_iarray.take ((p.size - 1) + 1)).filterMap id)
      (dying :: (((p.entity_iarray.take ((p.size - 1) + 1)).eraseIdx rank).filterMap id)) :=
    filterMap_eraseIdx_perm _ rank dying htklen htkgetD
  have hmain : List.Perm ((p.entity_array.set
        (p.entity_array.findIdx (fun s => s = some dying)) none).filterMap id)
      (((p.entity_iarray.take ((p.size - 1) + 1)).eraseIdx rank).filterMap id) := by
    apply List.Perm.cons_inv (a := dying)
    refine heaperm.symm.trans ?_
    rw [hsz1]
    exact hperm.trans (by rw [← hsz1] at hperm ⊢; exact hiaperm)
  refine ⟨{ p with
      size := p.size - 1
      entity_iarray := (shiftLeftIar p.entity_iarray rank (p.size - 1)).set (p.size - 1) none
      entity_array := p.entity_array.set
        (p.entity_array.findIdx (fun s => s = some dying)) none }, ?_, ?_, ?_, rfl, ?_, ?_, ?_⟩
  · simp only [ga_entity_dereference_by_rank, hd, ga_get_entity_id, hfind]
  · refine ⟨?_, ?_, hmax2, ?_, ?_, ?_, ?_, ?_, ?_, ?_⟩
    · show (p.entity_array.set _ none).length = p.max_size
      simp [hea]
    · show ((shiftLeftIar p.entity_iarray rank (p.size - 1)).set (p.size - 1) none).length =
        p.max_size
      simp [shiftLeftIar_length, hia]
    · show p.size - 1 < p.max_size
      omega
    · show p.free_index < p.max_size
      exact hfi
    · intro i hi hisz
      have hi2 : i < p.max_size := hi
      have hisz2 : i < p.size - 1 := hisz
      show (((shiftLeftIar p.entity_iarray rank (p.size - 1)).set (p.size - 1)
        none).getD i none).isSome = true
      rw [List.getD_eq_getElem?_getD, List.getElem?_set_ne (by omega),
        ← List.getD_eq_getElem?_getD, shiftLeftIar_getD _ _ _ i (by omega)]
      by_cases hcase : rank ≤ i ∧ i < p.size - 1
      · rw [if_pos hcase]
        exact hrl (i + 1) (by omega) (by omega)
      · rw [if_neg hcase]
        exact hrl i (by omega) (by omega)
    · intro i hi hisz
      have hi2 : i < p.max_size := hi
      have hisz2 : p.size - 1 ≤ i := hisz
      show ((shiftLeftIar p.entity_iarray rank (p.size - 1)).set (p.size - 1)
        none).getD i none = none
      by_cases hieq : i = p.size - 1
      · subst hieq
        rw [List.getD_eq_getElem?_getD, List.getElem?_set_self (by
          rw [shiftLeftIar_length]; omega)]
        rfl
      · rw [List.getD_eq_getElem?_getD, List.getElem?_set_ne (by omega),
          ← List.getD_eq_getElem?_getD, shiftLeftIar_getD _ _ _ i (by omega)]
        rw [if_neg (by omega)]
        exact hrd i (by omega) (by omega)
    · show ((p.entity_array.set _ none).filterMap id).Nodup
      exact ((heaperm.nodup_iff).mp hnd).of_cons
    · show List.Perm ((p.entity_array.set _ none).filterMap id)
        ((((shiftLeftIar p.entity_iarray rank (p.size - 1)).set (p.size - 1)
          none).take (p.size - 1)).filterMap id)
      rw [htake_eq]
      exact hmain
    · intro h hmem
      show h < p.next_ptr
      have hmem2 : h ∈ dying :: ((p.entity_array.set
          (p.entity_array.findIdx (fun s => s = some dying)) none).filterMap id) :=
        List.mem_cons_of_mem dying hmem
      have hmem3 : h ∈ liveh p.entity_array := by
        by_cases hhd : h = dying
        · subst hhd
          exact hdying_ea
        · exact heaperm.symm.mem_iff.mp (List.mem_cons.mpr (Or.inr hmem))
      exact hlt h hmem3
  · show ((p.entity_array.set _ none).filterMap id).length = p.size - 1
    have hlen2 := heaperm.length_eq
    rw [List.length_cons] at hlen2
    have hc2 : (List.filterMap id p.entity_array).length = p.size := hcount
    omega
  · intro i hilt
    show ((shiftLeftIar p.entity_iarray rank (p.size - 1)).set (p.size - 1)
      none).getD i none = p.entity_iarray.getD i none
    rw [List.getD_eq_getElem?_getD, List.getElem?_set_ne (by omega),
      ← List.getD_eq_getElem?_getD, shiftLeftIar_getD _ _ _ i (by omega)]
    rw [if_neg (by omega)]
  · intro i hige hilt
    show ((shiftLeftIar p.entity_iarray rank (p.size - 1)).set (p.size - 1)
      none).getD i none = p.entity_iarray.getD (i + 1) none
    rw [List.getD_eq_getElem?_getD, List.getElem?_set_ne (by omega),
      ← List.getD_eq_getElem?_getD, shiftLeftIar_getD _ _ _ i (by omega)]
    rw [if_pos (by omega)]
  · exact ⟨p.entity_array.findIdx (fun s => s = some dying), by rw [hjgetD, hd], rfl⟩

/-- C1: the size/rank pool invariant is preserved by both operations:
after ga_get_free_entity or ga_entity_dereference_by_rank returns on any
population satisfying it, the id index contains exactly `size` non-NULL
slots and the rank index is a gapless permutation of those live entities
in positions `0..size-1` (that is `PoolInv` again, whose permutation and
emptiness clauses say exactly this); moreover dereference left-shifts
every rank above the dying entity's rank, clears the freed id slot, and
decrements `size` by one. -/
theorem pool_size_rank_invariant_preserved (p : population) (hInv : PoolInv p) :
    (p.chromosome_constructor.isSome = true →
      ∃ p' e, ga_get_free_entity p = some (p', e) ∧ PoolInv p' ∧
        (liveh p'.entity_array).length = p'.size) ∧
    (∀ rank, rank < p.size →
      ∃ p', ga_entity_dereference_by_rank p rank = some p' ∧ PoolInv p' ∧
        (liveh p'.entity_array).length = p'.size ∧
        p'.size = p.size - 1 ∧
        (∀ i, i < rank → p'.entity_iarray.getD i none = p.entity_iarray.getD i none) ∧
        (∀ i, rank ≤ i → i < p.size - 1 →
          p'.entity_iarray.getD i none = p.entity_iarray.getD (i + 1) none) ∧
        (∃ j, p.entity_array.getD j none = p.entity_iarray.getD rank none ∧
          p'.entity_array = p.entity_array.set j none)) :=
  ⟨fun hcon => ga_get_free_entity_preserves p hInv hcon,
   fun rank hrank => ga_entity_dereference_by_rank_preserves p hInv rank hrank⟩

theorem pool_size_rank_invariant_preserved_witness :
    PoolInv examplePop3 ∧
    ((examplePop3.chromosome_constructor.isSome = true →
      ∃ p' e, ga_get_free_entity examplePop3 = some (p', e) ∧ PoolInv p' ∧
        (liveh p'.entity_array).length = p'.size) ∧
    (∀ rank, rank < examplePop3.size →
      ∃ p', ga_entity_dereference_by_rank examplePop3 rank = some p' ∧ PoolInv p' ∧
        (liveh p'.entity_array).length = p'.size ∧
        p'.size = examplePop3.size - 1 ∧
        (∀ i, i < rank →
          p'.entity_iarray.getD i none = examplePop3.entity_iarray.getD i none) ∧
        (∀ i, rank ≤ i → i < examplePop3.size - 1 →
          p'.entity_iarray.getD i none = examplePop3.entity_iarray.getD (i + 1) none) ∧
        (∃ j, examplePop3.entity_array.getD j none =
            examplePop3.entity_iarray.getD rank none ∧
          p'.entity_array = examplePop3.entity_array.set j none))) :=
  ⟨by decide, pool_size_rank_invariant_preserved examplePop3 (by decide)⟩
